import Mathlib

/-!
# EventBooker: the booking reservation workflow

A shallow embedding of `internal/model`, `internal/repository` (event and booking
repositories, `Storage.WithTx`), `internal/service/booking.go`, the expiration sweep of
`internal/service/scheduler.go`, the notification dispatcher of
`internal/service/tgservice.go`, the validation of `internal/service/event.go` and the
handlers of `internal/api/handlers/booking.go`, followed by the properties of `Book`,
`Confirm`, `CancelBook`, `WithTx`, the sweep, the dispatcher, the listing of
reservations, the handlers and `CreateEvent` that hold (or fail) on that code.

Modelling conventions

* `time.Time` is an integer number of nanoseconds counted from the zero `time.Time`;
  `time.Duration` is an integer number of nanoseconds; `t.Add(d)` is `t + d`
  (the saturation of `Add` at the ends of the representable range is not modelled).
* Go `int` values (identifiers, `TotalPlace`, counts) are integers; the code compares
  them and never does arithmetic on them.
* A Go `error` is `Option GoError`, `none` being `nil`.
* The database is a pair of committed tables plus, while a transaction is open, the
  list of statements executed on the transaction handle and not yet committed.
  A repository is built over a handle (`dbInterface`): the connection pool, whose
  statements take effect at once, or the open transaction.
* Every database call and every `time.Now()` has its outcome supplied by the
  environment (`Faults`, `BookEnv`, `SweepEnv`), so the embedding is a pure function.
* Goroutines are modelled by their effect in one fixed order: one iteration of the sweep
  loop, one pass of the worker loop on one message, two transactions that overlap.
* Library functions (`strconv.Atoi`, `time.Parse`, `time.ParseDuration`, the formatting
  of a `time.Time`) and the service behind the handlers are parameters.
-/

namespace EventBooker

/-- An instant (`time.Time`), in nanoseconds from the zero `time.Time`. -/
abbrev Time := Int

/-- A `time.Duration`, in nanoseconds. -/
abbrev Duration := Int

/-! ## internal/model -/

namespace model

def StatusBookingPending : String := "pending"
def StatusBookingConfirmed : String := "confirmed"
def StatusBookingCanceled : String := "cancelled"

structure BookingInCreate where
  UserID : Int
  EventID : Int
  ExpiresAt : Time := 0
  deriving DecidableEq, Repr

structure BookingInRepo where
  ID : Int
  UserID : Int
  EventID : Int
  Status : String
  ExpiresAt : Time
  CreatedAt : Time
  deriving DecidableEq, Repr

structure EventInRepo where
  ID : Int
  Title : String
  Description : String
  EventDate : Time
  Status : String
  TotalPlace : Int
  ReservationPeriod : Duration
  BookingConfimation : Bool
  CreatedAt : Time
  deriving DecidableEq, Repr

/-- The zero value of `model.EventInRepo` (what `var record model.EventInRepo` holds). -/
def EventInRepo.zero : EventInRepo :=
  { ID := 0, Title := "", Description := "", EventDate := 0, Status := "",
    TotalPlace := 0, ReservationPeriod := 0, BookingConfimation := false, CreatedAt := 0 }

structure UserInRepo where
  ID : Int
  Email : String
  Password : String
  Role : String
  TgChatID : Option Int
  CreatedAt : Time
  deriving DecidableEq, Repr

end model

open model

/-! ## Errors -/

/-- The error values the workflow can return: the sentinels of `service/errors.go`,
`sql.ErrNoRows`, an error produced by the database driver, and `fmt.Errorf("...: %w", e)`. -/
inductive GoError where
  | ErrEventNotFound
  | ErrEventAlreadyPassed
  | ErrEmptyTitle
  | ErrInvalidTotalPlace
  | ErrInvalidEventDate
  | ErrBookingNotFound
  | ErrBookingNotRequired
  | ErrNoSeatsAvailable
  | ErrUserNotFound
  | ErrUnauthorized
  | ErrInvalidToken
  | ErrExpiredToken
  | sqlErrNoRows
  | driver (msg : String)
  | wrapf (msg : String) (inner : GoError)
  deriving DecidableEq, Repr

/-- An error reported by the database driver: `sql.ErrNoRows`, or any other failure. -/
inductive DriverError where
  | ErrNoRows
  | other (msg : String)
  deriving DecidableEq, Repr

/-- A driver error as a Go `error` value. -/
def DriverError.toError : DriverError → GoError
  | .ErrNoRows => .sqlErrNoRows
  | .other msg => .driver msg

/-- The test `errors.Is(err, target)`: `err` or an error it wraps is `target`. -/
def errorsIs : GoError → GoError → Bool
  | .wrapf msg inner, target => decide (GoError.wrapf msg inner = target) || errorsIs inner target
  | e, target => decide (e = target)

/-- How a Go function call ends: it returns its `error` result, or it panics. -/
inductive FnResult where
  | returned (err : Option GoError)
  | panicked (value : String)
  deriving DecidableEq, Repr

/-! ## The database -/

/-- The committed tables. -/
structure DB where
  events : List EventInRepo
  booking : List BookingInRepo
  users : List UserInRepo := []
  deriving DecidableEq, Repr

/-- The data-changing statements of the booking repository. -/
inductive Stmt where
  /-- `INSERT INTO booking (user_id, event_id, status, expires_at, created_at) VALUES ...`;
  `ID` is the key the database assigns to the new row. -/
  | insertBooking (row : BookingInRepo)
  /-- `UPDATE booking SET status=$1 WHERE user_id=$2 AND event_id=$3`. -/
  | updateBookingStatus (status : String) (userID eventID : Int)
  /-- `DELETE FROM booking WHERE status = (pending) AND expires_at < $1`. -/
  | deleteExpiredBooking (now : Time)
  /-- `INSERT INTO events (title, event_description, event_date, event_status, total_place,
  reservation_period, booking_confirmation, created_at) VALUES ...`; `ID` is the key the
  database assigns to the new row. -/
  | insertEvent (row : EventInRepo)
  deriving DecidableEq, Repr

/-- What `UPDATE booking SET status=$1 WHERE user_id=$2 AND event_id=$3` does to one row. -/
def setStatus (status : String) (userID eventID : Int) (r : BookingInRepo) : BookingInRepo :=
  if r.UserID = userID ∧ r.EventID = eventID then { r with Status := status } else r

/-- The effect of one statement on the tables. -/
def Stmt.exec : Stmt → DB → DB
  | .insertBooking row, d => { d with booking := d.booking ++ [row] }
  | .updateBookingStatus status userID eventID, d =>
      { d with booking := d.booking.map (setStatus status userID eventID) }
  | .deleteExpiredBooking now, d =>
      { d with booking := d.booking.filter fun r =>
          !(decide (r.Status = "pending") && decide (r.ExpiresAt < now)) }
  | .insertEvent row, d => { d with events := d.events ++ [row] }

/-- The handle a repository runs its statements on (`dbInterface`): the connection
pool `*dbpg.DB`, or the transaction `*sql.Tx` opened by `WithTx`. -/
inductive dbInterface where
  | pool
  | tx
  deriving DecidableEq, Repr

/-- The database during a call: the committed tables and the statements executed so far
on the open transaction. -/
structure Session where
  db : DB
  txlog : List Stmt
  deriving DecidableEq, Repr

/-- The tables with a list of statements applied in order. -/
def applyLog (log : List Stmt) (d : DB) : DB :=
  log.foldl (fun acc st => st.exec acc) d

/-- What a query on handle `h` reads: the committed tables, and through the
transaction also its own uncommitted statements. -/
def Session.view (s : Session) : dbInterface → DB
  | .pool => s.db
  | .tx => applyLog s.txlog s.db

/-- The call `ExecContext` of a statement on handle `h`, when the driver reports no error. -/
def Session.run (s : Session) (h : dbInterface) (st : Stmt) : Session :=
  match h with
  | .pool => { s with db := st.exec s.db }
  | .tx => { s with txlog := s.txlog ++ [st] }

/-- The errors the database driver reports, one per call site; `none` is success. -/
structure Faults where
  /-- `PingContext` in `WithTx`. -/
  ping : Option DriverError := none
  /-- `BeginTx` in `WithTx`. -/
  beginTx : Option DriverError := none
  /-- `tx.Commit` in `WithTx`. -/
  commit : Option DriverError := none
  /-- `QueryContext` in `eventRepository.GetByID`. -/
  eventQuery : Option DriverError := none
  /-- `res.Next()` in `eventRepository.GetByID` stopped by a driver error: it returns
  false, and the error, left in `res.Err()`, is never read. -/
  eventNext : Option DriverError := none
  /-- `res.Scan` in `eventRepository.GetByID`. -/
  eventScan : Option DriverError := none
  /-- `res.Err()` in `bookingRepository.GetOccupiedPlace`. -/
  occupiedQuery : Option DriverError := none
  /-- `res.Scan` in `bookingRepository.GetOccupiedPlace`. -/
  occupiedScan : Option DriverError := none
  /-- `ExecContext` in `bookingRepository.Create`. -/
  bookingInsert : Option DriverError := none
  /-- `ExecContext` in `bookingRepository.UpdateStatus`. -/
  statusUpdate : Option DriverError := none
  deriving DecidableEq, Repr

/-! ## internal/repository -/

/-- The rows `SELECT * FROM events WHERE event_id=$1` yields first, if any. -/
def eventRow (d : DB) (id : Int) : Option EventInRepo :=
  d.events.find? fun e => decide (e.ID = id)

/-- The method `eventRepository.GetByID`: a failed query or scan is returned; when
`res.Next()` is false, because the query yields no row or because fetching it failed,
the zero record is returned with a nil error. -/
def eventRepository.GetByID (h : dbInterface) (s : Session) (id : Int)
    (queryErr nextErr scanErr : Option DriverError) : Except GoError EventInRepo :=
  match queryErr with
  | some err => .error err.toError
  | none =>
    match nextErr with
    | some _ => .ok EventInRepo.zero
    | none =>
      match eventRow (s.view h) id with
      | none => .ok EventInRepo.zero
      | some row =>
        match scanErr with
        | some err => .error err.toError
        | none => .ok row

/-- The rows counted by `bookingRepository.GetOccupiedPlace`:
`WHERE event_id=$1 AND status IN (pending, confirmed)`. -/
def occupiedRows (d : DB) (eventID : Int) : List BookingInRepo :=
  d.booking.filter fun r =>
    decide (r.EventID = eventID) && (decide (r.Status = "pending") || decide (r.Status = "confirmed"))

/-- The method `bookingRepository.GetOccupiedPlace`. -/
def bookingRepository.GetOccupiedPlace (h : dbInterface) (s : Session) (eventID : Int)
    (queryErr scanErr : Option DriverError) : Except GoError Int :=
  match queryErr with
  | some err => .error err.toError
  | none =>
    match scanErr with
    | some err => .error err.toError
    | none => .ok ((occupiedRows (s.view h) eventID).length : Int)

/-- The method `bookingRepository.Create`; `now` is its `time.Now()` and `newID` the key
the database gives the row. -/
def bookingRepository.Create (h : dbInterface) (s : Session) (b : BookingInCreate)
    (status : String) (now : Time) (newID : Int) (execErr : Option DriverError) :
    Session × Option GoError :=
  match execErr with
  | some err => (s, some err.toError)
  | none =>
    (s.run h (.insertBooking
      { ID := newID, UserID := b.UserID, EventID := b.EventID, Status := status,
        ExpiresAt := b.ExpiresAt, CreatedAt := now }), none)

/-- The method `bookingRepository.UpdateStatus(ctx, status, eventID, userID)`: its statement
is bound as `status, userID, eventID`. -/
def bookingRepository.UpdateStatus (h : dbInterface) (s : Session) (status : String)
    (eventID userID : Int) (execErr : Option DriverError) : Session × Option GoError :=
  match execErr with
  | some err => (s, some err.toError)
  | none => (s.run h (.updateBookingStatus status userID eventID), none)

/-- The calls made on the transaction handle by `WithTx`. -/
inductive TxCall where
  | Commit
  | Rollback
  deriving DecidableEq, Repr

/-- What a service call leaves behind: the committed tables, the calls made on the
transaction handle, and how the call ended. -/
structure TxOutcome where
  db : DB
  calls : List TxCall
  result : FnResult
  deriving DecidableEq, Repr

/-- The method `Storage.WithTx`. The body `fn` runs against a session whose transaction log
is empty; statements it runs through the transaction are applied to the committed
tables only when `Commit` succeeds, statements it runs on the pool are applied at once.
A failed `Rollback` is only logged. -/
def Storage.WithTx (f : Faults) (db : DB) (fn : Session → Session × FnResult) : TxOutcome :=
  match f.ping with
  | some err => { db := db, calls := [], result := .returned (some (.wrapf "database unavailable" err.toError)) }
  | none =>
    match f.beginTx with
    | some err => { db := db, calls := [], result := .returned (some (.wrapf "begin transaction" err.toError)) }
    | none =>
      match fn { db := db, txlog := [] } with
      | (s, .panicked v) => { db := s.db, calls := [.Rollback], result := .panicked v }
      | (s, .returned (some err)) =>
          { db := s.db, calls := [.Rollback], result := .returned (some err) }
      | (s, .returned none) =>
        match f.commit with
        | some err =>
            { db := s.db, calls := [.Commit], result := .returned (some (.wrapf "commit failed" err.toError)) }
        | none => { db := applyLog s.txlog s.db, calls := [.Commit], result := .returned none }

/-! ## internal/service/booking.go -/

/-- What the environment supplies to one call of `Book`. -/
structure BookEnv where
  faults : Faults := {}
  /-- `time.Now()` in `event.EventDate.Before(time.Now())`. -/
  nowCheck : Time
  /-- `time.Now()` in `b.ExpiresAt = time.Now().Add(event.ReservationPeriod)`. -/
  nowExpiry : Time
  /-- `time.Now()` in `bookingRepository.Create`. -/
  nowCreate : Time
  /-- The key the database assigns to the inserted row. -/
  newID : Int
  deriving DecidableEq, Repr

/-- The body passed to `WithTx` by `bookingService.Book`. -/
def bookingService.BookFn (env : BookEnv) (b : BookingInCreate) (s : Session) :
    Session × FnResult :=
  match eventRepository.GetByID .tx s b.EventID env.faults.eventQuery env.faults.eventNext
      env.faults.eventScan with
  | .error err =>
      if errorsIs err .sqlErrNoRows then (s, .returned (some .ErrBookingNotFound))
      else (s, .returned (some err))
  | .ok event =>
    match bookingRepository.GetOccupiedPlace .tx s b.EventID
        env.faults.occupiedQuery env.faults.occupiedScan with
    | .error err => (s, .returned (some err))
    | .ok occupiedPlace =>
      if event.EventDate < env.nowCheck then (s, .returned (some .ErrEventAlreadyPassed))
      else if occupiedPlace ≥ event.TotalPlace then (s, .returned (some .ErrNoSeatsAvailable))
      else
        let b1 : BookingInCreate := { b with ExpiresAt := env.nowExpiry + event.ReservationPeriod }
        let status : String :=
          if event.BookingConfimation then StatusBookingPending else StatusBookingConfirmed
        match bookingRepository.Create .tx s b1 status env.nowCreate env.newID
            env.faults.bookingInsert with
        | (s1, some err) => (s1, .returned (some err))
        | (s1, none) => (s1, .returned none)

/-- The method `bookingService.Book`. -/
def bookingService.Book (env : BookEnv) (db : DB) (b : BookingInCreate) : TxOutcome :=
  Storage.WithTx env.faults db (bookingService.BookFn env b)

/-- The body passed to `WithTx` by `bookingService.Confirm`. The update goes through
`bs.storage`, the repository over the pool, not through the transaction `s`. The call
site hands `bookID, eventID, userID` to `UpdateStatus`, whose parameters are
`eventID, userID` and whose statement has no predicate on the booking key: `bookID`
reaches no statement. -/
def bookingService.ConfirmFn (f : Faults) (_bookID eventID userID : Int) (s : Session) :
    Session × FnResult :=
  match eventRepository.GetByID .tx s eventID f.eventQuery f.eventNext f.eventScan with
  | .error err =>
      if errorsIs err .sqlErrNoRows then (s, .returned (some .ErrBookingNotFound))
      else (s, .returned (some err))
  | .ok event =>
    if !event.BookingConfimation then (s, .returned (some .ErrBookingNotRequired))
    else
      match bookingRepository.UpdateStatus .pool s StatusBookingConfirmed eventID userID
          f.statusUpdate with
      | (s1, some err) => (s1, .returned (some err))
      | (s1, none) => (s1, .returned none)

/-- The method `bookingService.Confirm`. -/
def bookingService.Confirm (f : Faults) (db : DB) (bookID eventID userID : Int) : TxOutcome :=
  Storage.WithTx f db (bookingService.ConfirmFn f bookID eventID userID)

/-- The method `bookingService.CancelBook`: one `UpdateStatus` on the pool, outside any
transaction. As in `Confirm`, `bookID` reaches no statement. -/
def bookingService.CancelBook (f : Faults) (db : DB) (_bookID eventID userID : Int) :
    DB × Option GoError :=
  match bookingRepository.UpdateStatus .pool { db := db, txlog := [] } StatusBookingCanceled
      eventID userID f.statusUpdate with
  | (s1, err) => (s1.db, err)

/-- The occupied seats of an event: its reservations with status pending or confirmed. -/
def occupied (d : DB) (eventID : Int) : Int :=
  ((occupiedRows d eventID).length : Int)

/-! ## The expiration sweep: internal/repository/booking.go, internal/service/scheduler.go -/

namespace model

structure BookingGetForTG where
  ID : Int
  TgChatID : Int
  EventDate : Time
  TitleEvent : String
  deriving DecidableEq, Repr

end model

/-- The message type `RetryMessage` of `internal/service/tgservice.go`. -/
structure RetryMessage where
  ChatID : Int
  Attempts : Int
  Text : String
  deriving DecidableEq, Repr

/-- The rows of `booking b INNER JOIN events e ON b.event_id = e.event_id INNER JOIN users u
ON b.user_id = u.user_id WHERE expires_at < $1 AND status=(pending)`, listed in the order
of the booking table. -/
def expiredJoin (d : DB) (now : Time) : List (BookingInRepo × EventInRepo × UserInRepo) :=
  (d.booking.filter fun b => decide (b.ExpiresAt < now) && decide (b.Status = "pending")).flatMap
    fun b => (d.events.filter fun e => decide (b.EventID = e.ID)).flatMap
      fun e => (d.users.filter fun u => decide (b.UserID = u.ID)).map fun u => (b, e, u)

/-- The call `res.Scan(&temp.ID, &temp.TgChatID, &temp.TitleEvent, &temp.EventDate)` on one
row of the join. The column `tg_chatid` is nullable (a user is created with an optional
`TgChatID`) and the target `temp.TgChatID` is an `int64`, so a NULL makes the scan fail. -/
def scanExpired (scanErr : Option DriverError) :
    BookingInRepo × EventInRepo × UserInRepo → Except GoError BookingGetForTG
  | (b, e, u) =>
    match scanErr with
    | some err => .error err.toError
    | none =>
      match u.TgChatID with
      | none => .error (.driver "converting NULL to int64 is unsupported")
      | some chat =>
          .ok { ID := b.ID, TgChatID := chat, EventDate := e.EventDate, TitleEvent := e.Title }

/-- The loop `for res.Next()` of `GetExpiredBooking`: the rows are scanned in order and the
first failed scan ends the call with that error. -/
def scanExpiredRows (scanErr : Option DriverError) :
    List (BookingInRepo × EventInRepo × UserInRepo) → Except GoError (List BookingGetForTG)
  | [] => .ok []
  | x :: xs =>
    match scanExpired scanErr x with
    | .error err => .error err
    | .ok y =>
      match scanExpiredRows scanErr xs with
      | .error err => .error err
      | .ok ys => .ok (y :: ys)

/-- The method `bookingRepository.GetExpiredBooking`; `now` is its `time.Now()`. When
`nextStop` is `some n` a driver error makes `res.Next()` return false after `n` rows; the
error, left in `res.Err()`, is never read and the rows scanned so far are returned. -/
def bookingRepository.GetExpiredBooking (h : dbInterface) (s : Session) (now : Time)
    (queryErr : Option DriverError) (nextStop : Option Nat) (scanErr : Option DriverError) :
    Except GoError (List BookingGetForTG) :=
  match queryErr with
  | some err => .error err.toError
  | none =>
    match nextStop with
    | none => scanExpiredRows scanErr (expiredJoin (s.view h) now)
    | some n => scanExpiredRows scanErr ((expiredJoin (s.view h) now).take n)

/-- The method `bookingRepository.DeleteExpiredBooking`; `now` is its `time.Now()`. -/
def bookingRepository.DeleteExpiredBooking (h : dbInterface) (s : Session) (now : Time)
    (execErr : Option DriverError) : Session × Option GoError :=
  match execErr with
  | some err => (s, some err.toError)
  | none => (s.run h (.deleteExpiredBooking now), none)

/-- The function `buildMessage`; `timeString` is the formatting of a `time.Time` by `%s`. -/
def buildMessage (timeString : Time → String) (b : BookingGetForTG) : RetryMessage :=
  { ChatID := b.TgChatID,
    Attempts := 0,
    Text := "Бронирование " ++ toString b.ID ++ " отменено.\n" ++
      ("Событие: " ++ b.TitleEvent ++ "\n") ++
      ("Время события: " ++ timeString b.EventDate ++ "\n") }

/-- What the environment supplies to one iteration of the sweep. -/
structure SweepEnv where
  /-- `time.Now()` in `GetExpiredBooking`. -/
  nowSelect : Time
  /-- `time.Now()` in `DeleteExpiredBooking`. -/
  nowDelete : Time
  /-- `QueryContext` in `GetExpiredBooking`. -/
  expiredQuery : Option DriverError := none
  /-- `res.Next()` in `GetExpiredBooking` stopped by a driver error after that many rows. -/
  expiredNext : Option Nat := none
  /-- `res.Scan` in `GetExpiredBooking`. -/
  expiredScan : Option DriverError := none
  /-- `ExecContext` in `DeleteExpiredBooking`. -/
  deleteExec : Option DriverError := none
  /-- When `some n`: the `select` of the push loop takes `<-ctx.Done()` once `n` messages
  have been pushed (if the loop has that many rounds). -/
  cancelAt : Option Nat := none
  /-- The formatting of a `time.Time` by `%s`. -/
  timeString : Time → String

/-- What one iteration of the sweep leaves behind: the committed tables, the messages
pushed on the channel in order, and whether `Start` returned inside the iteration. -/
structure TickResult where
  db : DB
  pushed : List RetryMessage
  returned : Bool
  deriving DecidableEq, Repr

/-- The end of an iteration of `SchedulerService.Start`: `deleteExpiredBooking`, whose error
is only logged. -/
def SchedulerService.deleteExpiredBooking (env : SweepEnv) (db : DB) : DB :=
  (bookingRepository.DeleteExpiredBooking .pool { db := db, txlog := [] } env.nowDelete
    env.deleteExec).1.db

/-- One iteration of the loop of `SchedulerService.Start`, entered through `<-ticker.C`.
A failed `GetExpiredBooking` is logged and leaves `expiredBooking` nil; the repository is
the one over the pool. A push that finds the channel full waits; the wait is not
modelled. -/
def SchedulerService.tick (env : SweepEnv) (db : DB) : TickResult :=
  let expiredBooking : List BookingGetForTG :=
    match bookingRepository.GetExpiredBooking .pool { db := db, txlog := [] } env.nowSelect
        env.expiredQuery env.expiredNext env.expiredScan with
    | .error _ => []
    | .ok rows => rows
  let msgs := expiredBooking.map (buildMessage env.timeString)
  match env.cancelAt with
  | none =>
      { db := SchedulerService.deleteExpiredBooking env db, pushed := msgs, returned := false }
  | some n =>
    if n < msgs.length then { db := db, pushed := msgs.take n, returned := true }
    else { db := SchedulerService.deleteExpiredBooking env db, pushed := msgs, returned := false }

/-- Modelled from the spec: the table declarations are not among the sources. The
identifier of a reservation is a key of the booking table, and every reservation refers
to exactly one stored event and exactly one stored user. -/
def DB.Integrity (d : DB) : Prop :=
  (d.booking.map fun b => b.ID).Nodup ∧
  ∀ b ∈ d.booking,
    (d.events.filter fun e => decide (b.EventID = e.ID)).length = 1 ∧
    (d.users.filter fun u => decide (b.UserID = u.ID)).length = 1

instance (d : DB) : Decidable d.Integrity := by
  unfold DB.Integrity
  infer_instance

/-! ## The notification dispatcher: internal/service/tgservice.go -/

/-- The constant `maxRetry`. -/
def maxRetry : Int := 5

/-- A value brought back into the range of a signed 64-bit integer, as Go arithmetic on
`int` and `time.Duration` does. -/
def wrap64 (x : Int) : Int :=
  (x + 9223372036854775808) % 18446744073709551616 - 9223372036854775808

/-- The delay `time.Second * 3 * time.Duration(r.Attempts)`, in nanoseconds. -/
def retryDelay (attempts : Int) : Duration :=
  wrap64 (3000000000 * attempts)

/-- What one pass of the loop of `RetryWorker` does with the message it took: whether
`tg.Send` was called, the loop variable `rm` at the end of the pass, and the retry
goroutine it started, if any, with its delay and its message. -/
structure WorkerStep where
  sent : Bool
  rm : RetryMessage
  retry : Option (Duration × RetryMessage)
  deriving DecidableEq, Repr

/-- One pass of the loop `for rm := range retryQueue` of `TelegramBot.RetryWorker`.
`tgNil` tells whether the receiver is nil, `sendErr` is what `tg.Send` returns. -/
def TelegramBot.RetryWorkerStep (tgNil : Bool) (sendErr : Option GoError) (rm : RetryMessage) :
    WorkerStep :=
  if tgNil then { sent := false, rm := rm, retry := none }
  else
    match sendErr with
    | none => { sent := true, rm := rm, retry := none }
    | some _ =>
      let rm1 : RetryMessage := { rm with Attempts := wrap64 (rm.Attempts + 1) }
      if rm1.Attempts < maxRetry then
        { sent := true, rm := rm1, retry := some (retryDelay rm1.Attempts, rm1) }
      else { sent := true, rm := rm1, retry := none }

/-- The retry goroutine: once its delay has passed it puts `r` back on the queue, unless
`<-ctx.Done()` is taken first, before or after the delay. -/
def retryTask (ctxDone : Bool) (r : RetryMessage) : Option RetryMessage :=
  if ctxDone then none else some r

/-- The life of one message in the dispatcher when the bot is present: a worker takes it
and runs one pass; a retry that is started and not cancelled puts the message back, and
a worker takes it again. `sendErr n` is what the call number `n` of `tg.Send` for this
message returns and `ctxDone n` tells whether the retry goroutine started after it is
cancelled. The result lists each pass in order, with the message as taken and the delay
of the retry started, if any; it is `none` when `fuel` passes do not end the life. -/
def messageLife (sendErr : Nat → Option GoError) (ctxDone : Nat → Bool) :
    Nat → Nat → RetryMessage → Option (List (RetryMessage × Option Duration))
  | 0, _, _ => none
  | fuel + 1, n, rm =>
    match (TelegramBot.RetryWorkerStep false (sendErr n) rm).retry with
    | none => some [(rm, none)]
    | some (delay, r) =>
      match retryTask (ctxDone n) r with
      | none => some [(rm, some delay)]
      | some r1 =>
        match messageLife sendErr ctxDone fuel (n + 1) r1 with
        | none => none
        | some rest => some ((rm, some delay) :: rest)

/-! ## Overlapping transactions -/

/-- The part of `Storage.WithTx` that follows the return of `fn`, the session being `s`
and the outcome of `fn` being `r`: rollback after a panic or an error, commit after nil. -/
def Storage.endTx (f : Faults) (s : Session) (r : FnResult) : TxOutcome :=
  match r with
  | .panicked v => { db := s.db, calls := [.Rollback], result := .panicked v }
  | .returned (some err) => { db := s.db, calls := [.Rollback], result := .returned (some err) }
  | .returned none =>
    match f.commit with
    | some err =>
        { db := s.db, calls := [.Commit], result := .returned (some (.wrapf "commit failed" err.toError)) }
    | none => { db := applyLog s.txlog s.db, calls := [.Commit], result := .returned none }

/-- Two calls of `Book` made from two requests at once, each on its own connection, in the
order: both `PingContext` and `BeginTx` succeed, the body of the first call runs, the
body of the second call runs, the first call ends its transaction, the second call
ends its transaction. `BeginTx(ctx, nil)` asks for the default isolation level of the
database, read committed, and no statement of `Book` locks a row: a transaction reads
the committed tables and its own statements, not the uncommitted insert of the other. -/
def overlappedBook (env1 env2 : BookEnv) (db : DB) (b1 b2 : BookingInCreate) :
    TxOutcome × TxOutcome :=
  match bookingService.BookFn env1 b1 { db := db, txlog := [] } with
  | (s1, r1) =>
    match bookingService.BookFn env2 b2 { db := s1.db, txlog := [] } with
    | (s2, r2) =>
      let o1 := Storage.endTx env1.faults { db := s2.db, txlog := s1.txlog } r1
      let o2 := Storage.endTx env2.faults { db := o1.db, txlog := s2.txlog } r2
      (o1, o2)

/-! ## Listing reservations: internal/repository/booking.go -/

namespace model

structure BookingWithEventDetails extends BookingInRepo where
  EventTitle : String
  EventDescription : String
  EventDate : Time
  deriving DecidableEq, Repr

structure BookingGetRequest where
  UserID : Int
  Mode : String
  LastCreatedAt : Time
  LastID : Int
  PageSize : Int
  deriving DecidableEq, Repr

end model

/-- The query texts `getQueryFromMode` can return. -/
inductive ListQuery where
  /-- `SELECT ... FROM booking b INNER JOIN events e ON e.event_id = b.event_id
  WHERE b.user_id=$1 AND b.created_at > $2 AND b.booking_id > $3
  ORDER BY b.created_at ASC, b.booking_id ASC LIMIT $4`. -/
  | next
  /-- `SELECT ... FROM booking b INNER JOIN events e ON e.event_id = b.event_id
  WHERE b.user_id=$1 AND ((b.created_at < $2) OR ( b.created_at = $2 AND b.booking_id < $3))
  ORDER BY b.created_at DESC, b.booking_id DESC LIMIT $4`. -/
  | prev
  /-- The empty text: `var query string` left untouched by the `switch`. -/
  | empty
  deriving DecidableEq, Repr

/-- The function `getQueryFromMode`. -/
def getQueryFromMode (mode : String) : ListQuery :=
  if mode = "next" then .next
  else if mode = "prev" then .prev
  else .empty

/-- The clause `ORDER BY b.created_at ASC, b.booking_id ASC`: row `a` may stand before `b`. -/
def ascOrder (a b : BookingInRepo) : Prop :=
  a.CreatedAt < b.CreatedAt ∨ (a.CreatedAt = b.CreatedAt ∧ a.ID ≤ b.ID)

instance : DecidableRel ascOrder := fun a b => by
  unfold ascOrder
  infer_instance

/-- The clause `ORDER BY b.created_at DESC, b.booking_id DESC`. -/
def descOrder (a b : BookingInRepo) : Prop :=
  ascOrder b a

instance : DecidableRel descOrder := fun a b => by
  unfold descOrder
  infer_instance

instance : IsTotal BookingInRepo descOrder :=
  ⟨fun a b => by
    unfold descOrder ascOrder
    rcases lt_trichotomy a.CreatedAt b.CreatedAt with h | h | h
    · exact Or.inr (Or.inl h)
    · rcases le_total a.ID b.ID with h2 | h2
      · exact Or.inr (Or.inr ⟨h, h2⟩)
      · exact Or.inl (Or.inr ⟨h.symm, h2⟩)
    · exact Or.inl (Or.inl h)⟩

instance : IsTrans BookingInRepo descOrder :=
  ⟨fun a b c h1 h2 => by
    unfold descOrder ascOrder at *
    rcases h1 with h1 | ⟨e1, i1⟩ <;> rcases h2 with h2 | ⟨e2, i2⟩
    · exact Or.inl (lt_trans h2 h1)
    · exact Or.inl (e2 ▸ h1)
    · exact Or.inl (e1 ▸ h2)
    · exact Or.inr ⟨e2.trans e1, le_trans i2 i1⟩⟩

/-- The rows of `booking b INNER JOIN events e ON e.event_id = b.event_id` whose booking
row satisfies `keep`, in the order of the booking table. -/
def bookingJoin (d : DB) (keep : BookingInRepo → Bool) : List (BookingInRepo × EventInRepo) :=
  (d.booking.filter keep).flatMap fun b =>
    (d.events.filter fun e => decide (b.EventID = e.ID)).map fun e => (b, e)

/-- The `WHERE` clause of the text for mode next, with arguments
`req.UserID, req.LastCreatedAt, req.LastID`. -/
def nextWhere (req : BookingGetRequest) (b : BookingInRepo) : Bool :=
  decide (b.UserID = req.UserID) && decide (b.CreatedAt > req.LastCreatedAt) &&
    decide (b.ID > req.LastID)

/-- The `WHERE` clause of the text for mode prev. -/
def prevWhere (req : BookingGetRequest) (b : BookingInRepo) : Bool :=
  decide (b.UserID = req.UserID) &&
    (decide (b.CreatedAt < req.LastCreatedAt) ||
      (decide (b.CreatedAt = req.LastCreatedAt) && decide (b.ID < req.LastID)))

/-- The rows a query text yields with the arguments of `req`, for a `LIMIT` that is not
negative. The empty text is an empty statement and yields no row. -/
def ListQuery.rows (q : ListQuery) (d : DB) (req : BookingGetRequest) :
    List (BookingInRepo × EventInRepo) :=
  match q with
  | .next =>
      ((bookingJoin d (nextWhere req)).insertionSort fun x y => ascOrder x.1 y.1).take
        req.PageSize.toNat
  | .prev =>
      ((bookingJoin d (prevWhere req)).insertionSort fun x y => descOrder x.1 y.1).take
        req.PageSize.toNat
  | .empty => []

/-- The call `res.Scan(...)` of `GetListBooking` on one row. -/
def scanListRow (x : BookingInRepo × EventInRepo) : BookingWithEventDetails :=
  { toBookingInRepo := x.1, EventTitle := x.2.Title, EventDescription := x.2.Description,
    EventDate := x.2.EventDate }

/-- The errors the driver reports to one call of `GetListBooking`. -/
structure ListEnv where
  /-- `QueryContext`. -/
  queryErr : Option DriverError := none
  /-- `res.Next()` stopped by a driver error after that many rows; the error is never read. -/
  nextStop : Option Nat := none
  /-- `res.Scan`. -/
  scanErr : Option DriverError := none
  deriving DecidableEq, Repr

/-- What a call of `GetListBooking` does: the query texts it hands to `QueryContext`, and
what it returns. -/
structure ListOutcome where
  queries : List ListQuery
  result : Except GoError (List BookingWithEventDetails)

/-- The method `bookingRepository.GetListBooking`. The text chosen by `getQueryFromMode` is
handed to `QueryContext` in every case. The database rejects a negative `LIMIT`
argument; the first failed scan ends the call with its error. -/
def bookingRepository.GetListBooking (h : dbInterface) (s : Session) (env : ListEnv)
    (req : BookingGetRequest) : ListOutcome :=
  let query := getQueryFromMode req.Mode
  { queries := [query],
    result :=
      match env.queryErr with
      | some err => .error err.toError
      | none =>
        if query ≠ .empty ∧ req.PageSize < 0 then .error (.driver "LIMIT must not be negative")
        else
          let rows := query.rows (s.view h) req
          let fetched := match env.nextStop with
            | none => rows
            | some n => rows.take n
          match env.scanErr, fetched with
          | some err, _ :: _ => .error err.toError
          | _, _ => .ok (fetched.map scanListRow) }

/-- The order of the spec on cursors `(createdAt, id)`: lexicographically less. -/
def lexLt (a b : Time × Int) : Prop :=
  a.1 < b.1 ∨ (a.1 = b.1 ∧ a.2 < b.2)

instance : DecidableRel lexLt := fun a b => by
  unfold lexLt
  infer_instance

/-- The cursor position `(createdAt, id)` of a reservation. -/
def BookingKey (b : BookingInRepo) : Time × Int :=
  (b.CreatedAt, b.ID)

/-! ## The sweeper loop: internal/service/scheduler.go -/

/-- The case the outer `select` of `SchedulerService.Start` takes at one round of its
loop: `<-ctx.Done()`, or `<-ticker.C` followed by an iteration in environment `env`. -/
inductive SelectCase where
  | ctxDone
  | tick (env : SweepEnv)

/-- The method `SchedulerService.Start`, given the cases its outer `select` takes in order:
the tables it leaves, the messages it pushed, and the number of iterations it started.
An exhausted list is a sweeper still waiting on its `select`. -/
def SchedulerService.Start : List SelectCase → DB → DB × List RetryMessage × Nat
  | [], db => (db, [], 0)
  | .ctxDone :: _, db => (db, [], 0)
  | .tick env :: rest, db =>
    if (SchedulerService.tick env db).returned then
      ((SchedulerService.tick env db).db, (SchedulerService.tick env db).pushed, 1)
    else
      match SchedulerService.Start rest (SchedulerService.tick env db).db with
      | (db1, pushed, n) => (db1, (SchedulerService.tick env db).pushed ++ pushed, n + 1)

/-! ## Creating events: internal/service/event.go, internal/repository/event.go -/

namespace model

def EventStatusPending : String := "pending"

structure EventInCreate where
  Title : String
  Description : String
  EventDate : Time
  TotalPlace : Int
  ReservationPeriod : String
  BookingConfimation : Bool
  deriving DecidableEq, Repr

end model

/-- The function `validateCreateEvent`; `now` is its `time.Now()`. -/
def validateCreateEvent (now : Time) (e : EventInCreate) : Option GoError :=
  if e.Title = "" then some .ErrEmptyTitle
  else if e.EventDate < now then some .ErrInvalidEventDate
  else if e.TotalPlace ≤ 0 then some .ErrInvalidTotalPlace
  else none

/-- What the environment supplies to one call of `CreateEvent`. -/
structure CreateEventEnv where
  /-- `time.Now()` in `validateCreateEvent`. -/
  nowValidate : Time
  /-- `time.Now()` in `eventRepository.Create`. -/
  nowCreate : Time
  /-- The key the database assigns to the inserted row. -/
  newID : Int
  /-- The library function `time.ParseDuration`. -/
  ParseDuration : String → Except GoError Duration
  /-- `ExecContext` in `eventRepository.Create`. -/
  eventInsert : Option DriverError := none

/-- The method `eventRepository.Create`. -/
def eventRepository.Create (h : dbInterface) (s : Session) (e : EventInCreate)
    (env : CreateEventEnv) : Session × Option GoError :=
  match env.ParseDuration e.ReservationPeriod with
  | .error err =>
      (s, some (.wrapf "invalid reservation_period format (use '30m', '1h', etc)" err))
  | .ok reservationPeriod =>
    match env.eventInsert with
    | some err => (s, some err.toError)
    | none =>
      (s.run h (.insertEvent
        { ID := env.newID, Title := e.Title, Description := e.Description,
          EventDate := e.EventDate, Status := EventStatusPending, TotalPlace := e.TotalPlace,
          ReservationPeriod := reservationPeriod, BookingConfimation := e.BookingConfimation,
          CreatedAt := env.nowCreate }), none)

/-- The method `eventService.CreateEvent`; the repository is the one over the pool. -/
def eventService.CreateEvent (env : CreateEventEnv) (db : DB) (e : EventInCreate) :
    DB × Option GoError :=
  match validateCreateEvent env.nowValidate e with
  | some err => (db, some err)
  | none =>
    match eventRepository.Create .pool { db := db, txlog := [] } e env with
    | (s1, err) => (s1.db, err)

/-! ## The handlers: internal/api/handlers/booking.go, response.go -/

namespace model

structure BookingInResponse where
  ID : Int
  UserID : Int
  EventID : Int
  Status : String
  ExpiresAt : Time
  CreatedAt : Time
  EventTitle : String
  EventDescription : String
  EventDate : Time
  deriving DecidableEq, Repr

end model

/-- The method `Error()` of the error values. -/
def GoError.Error : GoError → String
  | .ErrEventNotFound => "event not found"
  | .ErrEventAlreadyPassed => "event already passed"
  | .ErrEmptyTitle => "event title cannot be empty"
  | .ErrInvalidTotalPlace => "total places must be positive"
  | .ErrInvalidEventDate => "invalid event date"
  | .ErrBookingNotFound => "booking not found"
  | .ErrBookingNotRequired => "booking not required"
  | .ErrNoSeatsAvailable => "no seats available"
  | .ErrUserNotFound => "user not found"
  | .ErrUnauthorized => "unauthorized"
  | .ErrInvalidToken => "invalid token"
  | .ErrExpiredToken => "token has expired"
  | .sqlErrNoRows => "sql: no rows in result set"
  | .driver msg => msg
  | .wrapf msg inner => msg ++ ": " ++ inner.Error

/-- The library functions the handlers call. -/
structure Stdlib where
  /-- The function `strconv.Atoi`. -/
  Atoi : String → Except GoError Int
  /-- The function `time.Parse` with layout `time.RFC3339`. -/
  ParseRFC3339 : String → Except GoError Time

/-- What a handler reads from its `*ginext.Context`. -/
structure HandlerRequest where
  /-- `c.GetInt("userID")`. -/
  userID : Int
  /-- `c.Param("event_id")`. -/
  event_id : String := ""
  /-- `c.Query("last_created_at")`. -/
  last_created_at : String := ""
  /-- `c.Query("last_id")`. -/
  last_id : String := ""
  /-- `c.Query("page_size")`. -/
  page_size : String := ""
  /-- `c.Query("mode")`. -/
  mode : String := ""
  deriving DecidableEq, Repr

/-- The interface `service.BookingService` as the handlers call it, each method given by
what it returns; the handlers pass `eventID, userID` to `Confirm` and `CancelBook`. -/
structure BookingServiceStub where
  Book : BookingInCreate → Option GoError
  Confirm : Int → Int → Option GoError
  GetByUserID : BookingGetRequest → Except GoError (List BookingInResponse)
  GetCountUserBooking : Int → Except GoError Int
  CancelBook : Int → Int → Option GoError

/-- A call of a method of the booking service, with its arguments. -/
inductive ServiceCall where
  | Book (b : BookingInCreate)
  | Confirm (eventID userID : Int)
  | GetByUserID (req : BookingGetRequest)
  | GetCountUserBooking (userID : Int)
  | CancelBook (eventID userID : Int)
  deriving DecidableEq, Repr

/-- The JSON body of a response: `ErrorResponse`, `SuccessResponse`, or the map with the
keys `count` and `booking`. -/
inductive ResponseBody where
  | error (message : String)
  | result (message : String)
  | list (count : Int) (booking : List BookingInResponse)
  deriving DecidableEq, Repr

/-- What a handler does: the status code and body it writes, and the service methods
it called, in order. -/
structure HandlerResult where
  status : Nat
  body : ResponseBody
  calls : List ServiceCall
  deriving DecidableEq, Repr

/-- The function `NewErrorResponse`. -/
def NewErrorResponse (statusCode : Nat) (message : String) (calls : List ServiceCall) :
    HandlerResult :=
  { status := statusCode, body := .error message, calls := calls }

/-- The function `NewSuccessResponse`. -/
def NewSuccessResponse (statusCode : Nat) (message : String) (calls : List ServiceCall) :
    HandlerResult :=
  { status := statusCode, body := .result message, calls := calls }

/-- The method `BookingHandler.Book`. -/
def BookingHandler.Book (lib : Stdlib) (svc : BookingServiceStub) (c : HandlerRequest) :
    HandlerResult :=
  match lib.Atoi c.event_id with
  | .error err => NewErrorResponse 400 err.Error []
  | .ok eventID =>
    let b : BookingInCreate := { UserID := c.userID, EventID := eventID }
    match svc.Book b with
    | some err => NewErrorResponse 500 err.Error [.Book b]
    | none => NewSuccessResponse 201 "book" [.Book b]

/-- The method `BookingHandler.Confirm`. -/
def BookingHandler.Confirm (lib : Stdlib) (svc : BookingServiceStub) (c : HandlerRequest) :
    HandlerResult :=
  match lib.Atoi c.event_id with
  | .error err => NewErrorResponse 400 err.Error []
  | .ok eventID =>
    match svc.Confirm eventID c.userID with
    | some err => NewErrorResponse 500 err.Error [.Confirm eventID c.userID]
    | none => NewSuccessResponse 201 "book confirmed" [.Confirm eventID c.userID]

/-- The method `BookingHandler.Cancel`. -/
def BookingHandler.Cancel (lib : Stdlib) (svc : BookingServiceStub) (c : HandlerRequest) :
    HandlerResult :=
  match lib.Atoi c.event_id with
  | .error err => NewErrorResponse 400 err.Error []
  | .ok eventID =>
    match svc.CancelBook eventID c.userID with
    | some err => NewErrorResponse 500 err.Error [.CancelBook eventID c.userID]
    | none => NewSuccessResponse 200 "booking canceled" [.CancelBook eventID c.userID]

/-- The method `BookingHandler.GetListBooking`. -/
def BookingHandler.GetListBooking (lib : Stdlib) (svc : BookingServiceStub)
    (c : HandlerRequest) : HandlerResult :=
  match lib.ParseRFC3339 c.last_created_at with
  | .error err => NewErrorResponse 400 err.Error []
  | .ok lastCreatedAt =>
    match lib.Atoi c.last_id with
    | .error err => NewErrorResponse 400 err.Error []
    | .ok lastID =>
      match lib.Atoi c.page_size with
      | .error err => NewErrorResponse 400 err.Error []
      | .ok pageSize =>
        let req : BookingGetRequest :=
          { UserID := c.userID, Mode := c.mode, LastCreatedAt := lastCreatedAt,
            LastID := lastID, PageSize := pageSize }
        match svc.GetByUserID req with
        | .error err => NewErrorResponse 500 err.Error [.GetByUserID req]
        | .ok b =>
          match svc.GetCountUserBooking c.userID with
          | .error err =>
              NewErrorResponse 500 err.Error [.GetByUserID req, .GetCountUserBooking c.userID]
          | .ok count =>
              { status := 200, body := .list count b,
                calls := [.GetByUserID req, .GetCountUserBooking c.userID] }

/-! ## Sample data -/

def sampleEvent : EventInRepo :=
  { ID := 3, Title := "concert", Description := "", EventDate := 1000, Status := "pending",
    TotalPlace := 2, ReservationPeriod := 50, BookingConfimation := true, CreatedAt := 1 }

def sampleDB : DB :=
  { events := [sampleEvent],
    booking := [{ ID := 1, UserID := 7, EventID := 3, Status := "pending", ExpiresAt := 150, CreatedAt := 100 }] }

def sampleEnv : BookEnv :=
  { nowCheck := 200, nowExpiry := 201, nowCreate := 202, newID := 2 }

/-- The sample event with both of its places taken: one pending, one confirmed. -/
def fullDB : DB :=
  { events := [sampleEvent],
    booking :=
      [{ ID := 1, UserID := 7, EventID := 3, Status := "pending", ExpiresAt := 150, CreatedAt := 100 },
       { ID := 2, UserID := 9, EventID := 3, Status := "confirmed", ExpiresAt := 160, CreatedAt := 110 }] }

/-- A call whose date check reads the clock at exactly the date of the sample event. -/
def boundaryEnv : BookEnv :=
  { nowCheck := 1000, nowExpiry := 1001, nowCreate := 1002, newID := 2 }

/-- A call made after the date of the sample event. -/
def lateEnv : BookEnv :=
  { nowCheck := 2000, nowExpiry := 2001, nowCreate := 2002, newID := 2 }

/-- An event that needs no confirmation. -/
def openEvent : EventInRepo :=
  { ID := 4, Title := "lecture", Description := "", EventDate := 1000, Status := "pending",
    TotalPlace := 5, ReservationPeriod := 50, BookingConfimation := false, CreatedAt := 1 }

def openDB : DB :=
  { events := [sampleEvent, openEvent],
    booking := [{ ID := 1, UserID := 7, EventID := 4, Status := "confirmed", ExpiresAt := 150, CreatedAt := 100 }] }

/-- One user holding two reservations for the sample event. -/
def twoDB : DB :=
  { events := [sampleEvent],
    booking :=
      [{ ID := 1, UserID := 7, EventID := 3, Status := "pending", ExpiresAt := 150, CreatedAt := 100 },
       { ID := 2, UserID := 7, EventID := 3, Status := "pending", ExpiresAt := 160, CreatedAt := 110 }] }

/-- An event with a single place that requires confirmation. -/
def smallEvent : EventInRepo :=
  { ID := 5, Title := "workshop", Description := "", EventDate := 1000, Status := "pending",
    TotalPlace := 1, ReservationPeriod := 50, BookingConfimation := true, CreatedAt := 1 }

/-- The single-place event with no reservation yet. -/
def smallDB : DB := { events := [smallEvent], booking := [] }

/-- The environments of two successive calls of `Book`. -/
def firstEnv : BookEnv := { nowCheck := 200, nowExpiry := 201, nowCreate := 202, newID := 1 }

def secondEnv : BookEnv := { nowCheck := 210, nowExpiry := 211, nowCreate := 212, newID := 2 }

/-- A driver that fails the commit of the transaction. -/
def commitFails : Faults := { commit := some (.other "connection reset") }

/-- A user who registered with a chat identifier, and one who registered without. -/
def userWithChat : UserInRepo :=
  { ID := 7, Email := "a@example.org", Password := "x", Role := "user", TgChatID := some 555,
    CreatedAt := 1 }

def userNoChat : UserInRepo :=
  { ID := 9, Email := "b@example.org", Password := "y", Role := "user", TgChatID := none,
    CreatedAt := 2 }

/-- A pending reservation of the user with a chat identifier, its hold ending at 150,
and a confirmed reservation whose stale expiry is 120. -/
def sweepDB : DB :=
  { events := [sampleEvent],
    booking :=
      [{ ID := 1, UserID := 7, EventID := 3, Status := "pending", ExpiresAt := 150, CreatedAt := 100 },
       { ID := 2, UserID := 7, EventID := 3, Status := "confirmed", ExpiresAt := 120, CreatedAt := 70 }],
    users := [userWithChat] }

/-- A pending reservation of the user without a chat identifier, its hold ending at 150. -/
def noChatDB : DB :=
  { events := [sampleEvent],
    booking :=
      [{ ID := 1, UserID := 9, EventID := 3, Status := "pending", ExpiresAt := 150, CreatedAt := 100 }],
    users := [userNoChat] }

/-- A sweep iteration that runs after the hold ended. -/
def sweepEnv : SweepEnv :=
  { nowSelect := 200, nowDelete := 201, timeString := fun _ => "2026-11-01 10:00:00 +0000 UTC" }

/-- A sweep iteration whose selection runs before the end of the hold and whose delete
runs after it. -/
def straddleEnv : SweepEnv :=
  { nowSelect := 149, nowDelete := 151, timeString := fun _ => "2026-11-01 10:00:00 +0000 UTC" }

/-- A message as `buildMessage` makes it, and a transport whose every send fails. -/
def sampleMessage : RetryMessage := { ChatID := 555, Attempts := 0, Text := "hold ended" }

def alwaysFails : Nat → Option GoError := fun _ => some (.driver "telegram unreachable")

def neverDone : Nat → Bool := fun _ => false

/-- Three reservations of user 7, created at 100, 200 and 300. -/
def listDB : DB :=
  { events := [sampleEvent],
    booking :=
      [{ ID := 5, UserID := 7, EventID := 3, Status := "pending", ExpiresAt := 150, CreatedAt := 100 },
       { ID := 2, UserID := 7, EventID := 3, Status := "confirmed", ExpiresAt := 250, CreatedAt := 200 },
       { ID := 9, UserID := 7, EventID := 3, Status := "pending", ExpiresAt := 350, CreatedAt := 300 }],
    users := [userWithChat] }

/-- A request for the page after the cursor `(100, 3)`. -/
def nextRequest : BookingGetRequest :=
  { UserID := 7, Mode := "next", LastCreatedAt := 100, LastID := 3, PageSize := 10 }

/-- A request for the two rows before the cursor `(300, 9)`. -/
def prevRequest : BookingGetRequest :=
  { UserID := 7, Mode := "prev", LastCreatedAt := 300, LastID := 9, PageSize := 2 }

/-- A request whose mode is neither next nor prev. -/
def otherRequest : BookingGetRequest :=
  { UserID := 7, Mode := "first", LastCreatedAt := 0, LastID := 0, PageSize := 10 }

/-- A driver that rejects the statement handed to `QueryContext`. -/
def queryRejected : ListEnv :=
  { queryErr := some (.other "bind message supplies 4 parameters, but the statement requires 0") }

/-- A sweep iteration in which the cancellation is taken at the first push. -/
def cancelEnv : SweepEnv :=
  { nowSelect := 200, nowDelete := 201, cancelAt := some 0,
    timeString := fun _ => "2026-11-01 10:00:00 +0000 UTC" }

/-- A library whose `Atoi` reads `15` and rejects the rest, and whose `time.Parse` reads
one instant and rejects the rest. -/
def sampleLib : Stdlib :=
  { Atoi := fun str =>
      if str = "15" then .ok 15
      else .error (.driver "strconv.Atoi: parsing: invalid syntax"),
    ParseRFC3339 := fun str =>
      if str = "2026-11-01T10:00:00Z" then .ok 1000
      else .error (.driver "parsing time: cannot parse") }

/-- A service whose methods all succeed, and one whose `Book` fails. -/
def okService : BookingServiceStub :=
  { Book := fun _ => none, Confirm := fun _ _ => none, GetByUserID := fun _ => .ok [],
    GetCountUserBooking := fun _ => .ok 0, CancelBook := fun _ _ => none }

def failingService : BookingServiceStub :=
  { Book := fun _ => some .ErrNoSeatsAvailable, Confirm := fun _ _ => none,
    GetByUserID := fun _ => .ok [], GetCountUserBooking := fun _ => .ok 0,
    CancelBook := fun _ _ => none }

/-- A request to create an event, and the environment of the call. -/
def sampleCreate : EventInCreate :=
  { Title := "concert", Description := "", EventDate := 1000, TotalPlace := 0,
    ReservationPeriod := "30m", BookingConfimation := true }

def createEnv : CreateEventEnv :=
  { nowValidate := 200, nowCreate := 201, newID := 4,
    ParseDuration := fun _ => .ok 1800000000000 }

/-! ## Derived notions used in the statements -/

/-- The error `Book` and `Confirm` return when `GetByID` fails with `err`. -/
def repoError (err : GoError) : GoError :=
  if errorsIs err .sqlErrNoRows then .ErrBookingNotFound else err

/-- The row `Book` inserts for event record `e`. -/
def bookedRow (env : BookEnv) (b : BookingInCreate) (e : EventInRepo) : BookingInRepo :=
  { ID := env.newID, UserID := b.UserID, EventID := b.EventID,
    Status := if e.BookingConfimation then StatusBookingPending else StatusBookingConfirmed,
    ExpiresAt := env.nowExpiry + e.ReservationPeriod, CreatedAt := env.nowCreate }

/-- The record `GetByID` hands to the service when the query, the fetch of the row and
the scan succeed: the stored row, or the zero record when there is none. -/
def eventRecord (d : DB) (id : Int) : EventInRepo :=
  (eventRow d id).getD EventInRepo.zero

/-! ## Lemmas on the embedding -/

theorem toError_not_noSeats (err : DriverError) :
    (err.toError = GoError.ErrNoSeatsAvailable) = False := by
  cases err <;> simp [DriverError.toError]

/-- The body of `Book` on a fresh transaction: it returns an error and has run no
statement, or it returns nil after both checks passed, having run the single insert of
the booked row on the transaction. -/
theorem BookFn_cases (env : BookEnv) (db : DB) (b : BookingInCreate) :
    (∃ err, bookingService.BookFn env b { db := db, txlog := [] } =
        ({ db := db, txlog := [] }, .returned (some err))) ∨
    (bookingService.BookFn env b { db := db, txlog := [] } =
        ({ db := db, txlog := [.insertBooking (bookedRow env b (eventRecord db b.EventID))] },
          .returned none) ∧
      ¬ (eventRecord db b.EventID).EventDate < env.nowCheck ∧
      occupied db b.EventID < (eventRecord db b.EventID).TotalPlace) := by
  rcases hq : env.faults.eventQuery with _ | e
  swap
  · left
    refine ⟨repoError e.toError, ?_⟩
    simp only [bookingService.BookFn, eventRepository.GetByID, repoError, hq]
    split <;> rfl
  have hzero : eventRepository.GetByID .tx { db := db, txlog := [] } b.EventID
      env.faults.eventQuery env.faults.eventNext env.faults.eventScan = .ok EventInRepo.zero →
      ∃ err, bookingService.BookFn env b { db := db, txlog := [] } =
        ({ db := db, txlog := [] }, .returned (some err)) := by
    intro hget
    simp only [bookingService.BookFn, hget]
    rcases hoq : env.faults.occupiedQuery with _ | e
    swap
    · exact ⟨e.toError, by simp [bookingRepository.GetOccupiedPlace, hoq]⟩
    rcases hos : env.faults.occupiedScan with _ | e
    swap
    · exact ⟨e.toError, by simp [bookingRepository.GetOccupiedPlace, hoq, hos]⟩
    by_cases hd : (0 : Int) < env.nowCheck
    · exact ⟨.ErrEventAlreadyPassed, by
        simp [bookingRepository.GetOccupiedPlace, EventInRepo.zero, hd, hoq, hos]⟩
    · exact ⟨.ErrNoSeatsAvailable, by
        simp [bookingRepository.GetOccupiedPlace, EventInRepo.zero, hd, hoq, hos]⟩
  rcases hn : env.faults.eventNext with _ | e
  swap
  · exact Or.inl (hzero (by simp [eventRepository.GetByID, hq, hn]))
  rcases hrow : eventRow db b.EventID with _ | row
  · exact Or.inl (hzero (by
      simp [eventRepository.GetByID, Session.view, applyLog, hq, hn, hrow]))
  rcases hs : env.faults.eventScan with _ | e
  swap
  · left
    refine ⟨repoError e.toError, ?_⟩
    simp only [bookingService.BookFn, eventRepository.GetByID, Session.view, applyLog,
      List.foldl_nil, hrow, repoError, hq, hn, hs]
    split <;> rfl
  rcases hoq : env.faults.occupiedQuery with _ | e
  swap
  · exact Or.inl ⟨e.toError, by simp [bookingService.BookFn, eventRepository.GetByID,
      bookingRepository.GetOccupiedPlace, Session.view, applyLog, hrow, hq, hn, hs, hoq]⟩
  rcases hos : env.faults.occupiedScan with _ | e
  swap
  · exact Or.inl ⟨e.toError, by simp [bookingService.BookFn, eventRepository.GetByID,
      bookingRepository.GetOccupiedPlace, Session.view, applyLog, hrow, hq, hn, hs, hoq, hos]⟩
  by_cases hd : row.EventDate < env.nowCheck
  · exact Or.inl ⟨.ErrEventAlreadyPassed, by simp [bookingService.BookFn,
      eventRepository.GetByID, bookingRepository.GetOccupiedPlace, Session.view, applyLog,
      hrow, hd, hq, hn, hs, hoq, hos]⟩
  by_cases ho : ((occupiedRows db b.EventID).length : Int) ≥ row.TotalPlace
  · exact Or.inl ⟨.ErrNoSeatsAvailable, by simp [bookingService.BookFn,
      eventRepository.GetByID, bookingRepository.GetOccupiedPlace, Session.view, applyLog,
      hrow, hd, ho, hq, hn, hs, hoq, hos]⟩
  rcases hi : env.faults.bookingInsert with _ | e
  · right
    simp [bookingService.BookFn, eventRepository.GetByID, bookingRepository.GetOccupiedPlace,
      bookingRepository.Create, Session.view, Session.run, applyLog, hrow, hd, ho, eventRecord,
      bookedRow, occupied, hq, hn, hs, hoq, hos, hi]
    omega
  · exact Or.inl ⟨e.toError, by simp [bookingService.BookFn, eventRepository.GetByID,
      bookingRepository.GetOccupiedPlace, bookingRepository.Create, Session.view, applyLog,
      hrow, hd, ho, hq, hn, hs, hoq, hos, hi]⟩

/-- Every outcome of `Book`: either the tables are untouched and an error is returned, or
the call returns nil, the date and capacity checks passed, and the tables gained exactly
the booked row. -/
theorem Book_outcome (env : BookEnv) (db : DB) (b : BookingInCreate) :
    ((bookingService.Book env db b).db = db ∧
      (bookingService.Book env db b).result ≠ .returned none) ∨
    ((bookingService.Book env db b).result = .returned none ∧
      (bookingService.Book env db b).db =
        { db with booking := db.booking ++ [bookedRow env b (eventRecord db b.EventID)] } ∧
      ¬ (eventRecord db b.EventID).EventDate < env.nowCheck ∧
      occupied db b.EventID < (eventRecord db b.EventID).TotalPlace) := by
  simp only [bookingService.Book, Storage.WithTx]
  rcases BookFn_cases env db b with ⟨err, h⟩ | ⟨h, hd, ho⟩
  · rw [h]
    cases env.faults.ping <;> cases env.faults.beginTx <;> simp
  · rw [h]
    cases env.faults.ping <;> cases env.faults.beginTx <;> cases env.faults.commit <;>
      simp [applyLog, Stmt.exec, hd, ho]

theorem occupied_append (d : DB) (row : BookingInRepo) (id : Int) :
    occupied { d with booking := d.booking ++ [row] } id =
      occupied d id +
        (if row.EventID = id ∧ (row.Status = "pending" ∨ row.Status = "confirmed") then 1 else 0) := by
  simp only [occupied, occupiedRows, List.filter_append, List.length_append, Nat.cast_add]
  congr 1
  by_cases h : row.EventID = id ∧ (row.Status = "pending" ∨ row.Status = "confirmed")
  · rw [if_pos h]
    have : (decide (row.EventID = id) &&
        (decide (row.Status = "pending") || decide (row.Status = "confirmed"))) = true := by
      simpa using h
    simp [List.filter, this]
  · rw [if_neg h]
    have : (decide (row.EventID = id) &&
        (decide (row.Status = "pending") || decide (row.Status = "confirmed"))) = false := by
      simpa using h
    simp [List.filter, this]

theorem bookedRow_counts (env : BookEnv) (b : BookingInCreate) (e : EventInRepo) :
    (bookedRow env b e).Status = "pending" ∨ (bookedRow env b e).Status = "confirmed" := by
  cases h : e.BookingConfimation <;>
    simp [bookedRow, h, StatusBookingPending, StatusBookingConfirmed]

/-! ## Properties of Book -/

/-- C1. Sequential `Book` keeps the capacity invariant of the booked event: if its
pending-or-confirmed reservations number at most `TotalPlace` before the call they do
so after it; a call that returns nil found the count strictly below `TotalPlace` and
raises it by exactly one; a call that returns an error leaves it as it was; the events
table and the count of every other event are unchanged. -/
theorem C1_book_preserves_capacity (env : BookEnv) (db : DB) (b : BookingInCreate)
    (e : EventInRepo) (hrow : eventRow db b.EventID = some e)
    (hI1 : occupied db b.EventID ≤ e.TotalPlace) :
    occupied (bookingService.Book env db b).db b.EventID ≤ e.TotalPlace ∧
    ((bookingService.Book env db b).result = .returned none →
      occupied db b.EventID < e.TotalPlace ∧
      occupied (bookingService.Book env db b).db b.EventID = occupied db b.EventID + 1) ∧
    ((bookingService.Book env db b).result ≠ .returned none →
      occupied (bookingService.Book env db b).db b.EventID = occupied db b.EventID) ∧
    (bookingService.Book env db b).db.events = db.events ∧
    (∀ other : Int, other ≠ b.EventID →
      occupied (bookingService.Book env db b).db other = occupied db other) := by
  have hrec : eventRecord db b.EventID = e := by simp [eventRecord, hrow]
  rcases Book_outcome env db b with ⟨hdb, hres⟩ | ⟨hres, hdb, -, hocc⟩
  · rw [hdb]
    exact ⟨hI1, fun h => absurd h hres, fun _ => rfl, rfl, fun _ _ => rfl⟩
  · rw [hrec] at hocc hdb
    have hplus : occupied (bookingService.Book env db b).db b.EventID
        = occupied db b.EventID + 1 := by
      rw [hdb, occupied_append]
      have h1 : (bookedRow env b e).EventID = b.EventID := rfl
      rw [if_pos ⟨h1, bookedRow_counts env b e⟩]
    refine ⟨by omega, fun _ => ⟨hocc, hplus⟩, fun h => absurd hres h, by rw [hdb], ?_⟩
    intro other hne
    rw [hdb, occupied_append]
    have h1 : ¬ ((bookedRow env b e).EventID = other ∧
        ((bookedRow env b e).Status = "pending" ∨ (bookedRow env b e).Status = "confirmed")) :=
      fun h => hne h.1.symm
    rw [if_neg h1]
    simp

theorem C1_book_preserves_capacity_witness :
    eventRow sampleDB 3 = some sampleEvent ∧
    occupied sampleDB 3 ≤ sampleEvent.TotalPlace ∧
    (bookingService.Book sampleEnv sampleDB { UserID := 8, EventID := 3 }).result
      = .returned none ∧
    occupied (bookingService.Book sampleEnv sampleDB { UserID := 8, EventID := 3 }).db 3 = 2 :=
  ⟨by decide, by decide, by decide,
    ((C1_book_preserves_capacity sampleEnv sampleDB { UserID := 8, EventID := 3 } sampleEvent
      (by decide) (by decide)).2.1 (by decide)).2⟩

/-- C2. For a stored event whose date is not before the clock reading of the date check
(in the future, or exactly now), when the database calls that precede the capacity
check succeed: `Book` returns `ErrNoSeatsAvailable` if and only if the occupied count is
at least `TotalPlace`, and when it does the tables are unchanged (no reservation is
inserted). -/
theorem C2_no_seats_iff_full (env : BookEnv) (db : DB) (b : BookingInCreate)
    (e : EventInRepo) (hrow : eventRow db b.EventID = some e)
    (hfuture : env.nowCheck ≤ e.EventDate)
    (hp : env.faults.ping = none) (hb : env.faults.beginTx = none)
    (hq : env.faults.eventQuery = none) (hn : env.faults.eventNext = none)
    (hs : env.faults.eventScan = none)
    (hoq : env.faults.occupiedQuery = none) (hos : env.faults.occupiedScan = none) :
    ((bookingService.Book env db b).result = .returned (some .ErrNoSeatsAvailable) ↔
      e.TotalPlace ≤ occupied db b.EventID) ∧
    ((bookingService.Book env db b).result = .returned (some .ErrNoSeatsAvailable) →
      (bookingService.Book env db b).db = db) := by
  have hd : ¬ e.EventDate < env.nowCheck := not_lt.mpr hfuture
  refine ⟨⟨fun h => ?_, fun hfull => ?_⟩, fun h => ?_⟩
  · by_contra hfull
    have hfull1 : ¬ e.TotalPlace ≤ ((occupiedRows db b.EventID).length : Int) := hfull
    cases hi : env.faults.bookingInsert <;> cases hc : env.faults.commit <;>
      simp [bookingService.Book, Storage.WithTx, bookingService.BookFn,
        eventRepository.GetByID, bookingRepository.GetOccupiedPlace, bookingRepository.Create,
        Session.view, applyLog, hp, hb, hq, hn, hs, hoq, hos, hrow, hd, hfull1, hi, hc,
        toError_not_noSeats] at h
  · have hfull1 : e.TotalPlace ≤ ((occupiedRows db b.EventID).length : Int) := hfull
    simp [bookingService.Book, Storage.WithTx, bookingService.BookFn, eventRepository.GetByID,
      bookingRepository.GetOccupiedPlace, Session.view, applyLog, hp, hb, hq, hn, hs, hoq, hos,
      hrow, hd, hfull1]
  · rcases Book_outcome env db b with ⟨hdb, -⟩ | ⟨hres, -⟩
    · exact hdb
    · rw [hres] at h
      cases h

theorem C2_no_seats_iff_full_witness :
    eventRow fullDB 3 = some sampleEvent ∧ sampleEnv.nowCheck ≤ sampleEvent.EventDate ∧
    sampleEvent.TotalPlace ≤ occupied fullDB 3 ∧
    (bookingService.Book sampleEnv fullDB { UserID := 8, EventID := 3 }).result
      = .returned (some .ErrNoSeatsAvailable) ∧
    (bookingService.Book sampleEnv fullDB { UserID := 8, EventID := 3 }).db = fullDB :=
  ⟨by decide, by decide, by decide,
    (C2_no_seats_iff_full sampleEnv fullDB { UserID := 8, EventID := 3 } sampleEvent
      (by decide) (by decide) rfl rfl rfl rfl rfl rfl rfl).1.2 (by decide),
    (C2_no_seats_iff_full sampleEnv fullDB { UserID := 8, EventID := 3 } sampleEvent
      (by decide) (by decide) rfl rfl rfl rfl rfl rfl rfl).2 (by decide)⟩

/-- C3, as stated, fails when the event date equals the clock reading: a stored event with
a free place whose date is exactly now is not rejected; `Book` returns nil and inserts a
reservation. -/
theorem C3_counterexample :
    eventRow sampleDB 3 = some sampleEvent ∧
    sampleEvent.EventDate ≤ boundaryEnv.nowCheck ∧
    (bookingService.Book boundaryEnv sampleDB { UserID := 8, EventID := 3 }).result
      = .returned none ∧
    (bookingService.Book boundaryEnv sampleDB { UserID := 8, EventID := 3 }).db.booking
      = sampleDB.booking ++
        [{ ID := 2, UserID := 8, EventID := 3, Status := "pending", ExpiresAt := 1051,
           CreatedAt := 1002 }] := by
  decide

/-- C3, amended. For a stored event whose date is strictly before the clock reading of
the date check, when the database calls before the check succeed, `Book` returns
`ErrEventAlreadyPassed` whatever the occupied count is, and the tables are unchanged. -/
theorem C3_passed_event_rejected (env : BookEnv) (db : DB) (b : BookingInCreate)
    (e : EventInRepo) (hrow : eventRow db b.EventID = some e)
    (hpast : e.EventDate < env.nowCheck)
    (hp : env.faults.ping = none) (hb : env.faults.beginTx = none)
    (hq : env.faults.eventQuery = none) (hn : env.faults.eventNext = none)
    (hs : env.faults.eventScan = none)
    (hoq : env.faults.occupiedQuery = none) (hos : env.faults.occupiedScan = none) :
    (bookingService.Book env db b).result = .returned (some .ErrEventAlreadyPassed) ∧
    (bookingService.Book env db b).db = db := by
  simp [bookingService.Book, Storage.WithTx, bookingService.BookFn, eventRepository.GetByID,
    bookingRepository.GetOccupiedPlace, Session.view, applyLog, hp, hb, hq, hn, hs, hoq, hos,
    hrow, hpast]

theorem C3_passed_event_rejected_witness :
    (bookingService.Book lateEnv sampleDB { UserID := 8, EventID := 3 }).result
      = .returned (some .ErrEventAlreadyPassed) ∧
    (bookingService.Book lateEnv sampleDB { UserID := 8, EventID := 3 }).db = sampleDB :=
  C3_passed_event_rejected lateEnv sampleDB { UserID := 8, EventID := 3 } sampleEvent
    (by decide) (by decide) rfl rfl rfl rfl rfl rfl rfl

/-- C4. When `Book` on a stored event returns nil, the tables gained exactly one
reservation; if the event requires confirmation its status is pending and its
`ExpiresAt` is the clock reading taken by `Book` for the expiry plus the reservation
period of the event; if the event does not require confirmation its status is
confirmed. -/
theorem C4_booked_status (env : BookEnv) (db : DB) (b : BookingInCreate) (e : EventInRepo)
    (hrow : eventRow db b.EventID = some e)
    (hok : (bookingService.Book env db b).result = .returned none) :
    ∃ row : BookingInRepo,
      (bookingService.Book env db b).db.booking = db.booking ++ [row] ∧
      (e.BookingConfimation = true →
        row.Status = StatusBookingPending ∧
        row.ExpiresAt = env.nowExpiry + e.ReservationPeriod) ∧
      (e.BookingConfimation = false → row.Status = StatusBookingConfirmed) := by
  have hrec : eventRecord db b.EventID = e := by simp [eventRecord, hrow]
  rcases Book_outcome env db b with ⟨-, hres⟩ | ⟨-, hdb, -, -⟩
  · exact absurd hok hres
  · rw [hrec] at hdb
    refine ⟨bookedRow env b e, by rw [hdb], fun h => ?_, fun h => ?_⟩ <;>
      simp [bookedRow, h]

theorem C4_booked_status_witness :
    ∃ row : BookingInRepo,
      (bookingService.Book sampleEnv sampleDB { UserID := 8, EventID := 3 }).db.booking
        = sampleDB.booking ++ [row] ∧
      (sampleEvent.BookingConfimation = true →
        row.Status = StatusBookingPending ∧
        row.ExpiresAt = sampleEnv.nowExpiry + sampleEvent.ReservationPeriod) ∧
      (sampleEvent.BookingConfimation = false → row.Status = StatusBookingConfirmed) :=
  C4_booked_status sampleEnv sampleDB { UserID := 8, EventID := 3 } sampleEvent
    (by decide) (by decide)

/-- C6. `Book` is atomic: when it does not return nil the tables are exactly what they
were; when it returns nil the booking table is the old one followed by exactly one new
row carrying the requested user and event, and the other tables are unchanged. -/
theorem C6_book_atomic (env : BookEnv) (db : DB) (b : BookingInCreate) :
    ((bookingService.Book env db b).result ≠ .returned none →
      (bookingService.Book env db b).db = db) ∧
    ((bookingService.Book env db b).result = .returned none →
      ∃ row : BookingInRepo,
        (bookingService.Book env db b).db = { db with booking := db.booking ++ [row] } ∧
        row.UserID = b.UserID ∧ row.EventID = b.EventID) := by
  rcases Book_outcome env db b with ⟨hdb, hres⟩ | ⟨hres, hdb, -, -⟩
  · exact ⟨fun _ => hdb, fun h => absurd h hres⟩
  · exact ⟨fun h => absurd hres h, fun _ => ⟨_, hdb, rfl, rfl⟩⟩

theorem C6_book_atomic_witness :
    (bookingService.Book lateEnv sampleDB { UserID := 8, EventID := 3 }).db = sampleDB ∧
    ∃ row : BookingInRepo,
      (bookingService.Book sampleEnv sampleDB { UserID := 8, EventID := 3 }).db
        = { sampleDB with booking := sampleDB.booking ++ [row] } ∧
      row.UserID = 8 ∧ row.EventID = 3 :=
  ⟨(C6_book_atomic lateEnv sampleDB { UserID := 8, EventID := 3 }).1 (by decide),
   (C6_book_atomic sampleEnv sampleDB { UserID := 8, EventID := 3 }).2 (by decide)⟩

/-! ## Properties of Confirm and CancelBook -/

/-- The body of `Confirm` on a fresh transaction: it returns an error and has changed
nothing, or the event record requires confirmation, the update ran on the pool and changed
the committed tables at once, and it returns nil. -/
theorem ConfirmFn_cases (f : Faults) (db : DB) (bookID eventID userID : Int) :
    (∃ err, bookingService.ConfirmFn f bookID eventID userID { db := db, txlog := [] } =
        ({ db := db, txlog := [] }, .returned (some err))) ∨
    (bookingService.ConfirmFn f bookID eventID userID { db := db, txlog := [] } =
        ({ db := { db with booking :=
              db.booking.map (setStatus StatusBookingConfirmed userID eventID) },
           txlog := [] }, .returned none) ∧
      (eventRecord db eventID).BookingConfimation = true) := by
  rcases hq : f.eventQuery with _ | e
  swap
  · left
    refine ⟨repoError e.toError, ?_⟩
    simp only [bookingService.ConfirmFn, eventRepository.GetByID, repoError, hq]
    split <;> rfl
  rcases hn : f.eventNext with _ | e
  swap
  · exact Or.inl ⟨.ErrBookingNotRequired, by simp [bookingService.ConfirmFn,
      eventRepository.GetByID, EventInRepo.zero, hq, hn]⟩
  rcases hrow : eventRow db eventID with _ | row
  · exact Or.inl ⟨.ErrBookingNotRequired, by simp [bookingService.ConfirmFn,
      eventRepository.GetByID, Session.view, applyLog, hrow, EventInRepo.zero, hq, hn]⟩
  rcases hs : f.eventScan with _ | e
  swap
  · left
    refine ⟨repoError e.toError, ?_⟩
    simp only [bookingService.ConfirmFn, eventRepository.GetByID, Session.view, applyLog,
      List.foldl_nil, hrow, repoError, hq, hn, hs]
    split <;> rfl
  cases hc : row.BookingConfimation
  · exact Or.inl ⟨.ErrBookingNotRequired, by simp [bookingService.ConfirmFn,
      eventRepository.GetByID, Session.view, applyLog, hrow, hc, hq, hn, hs]⟩
  rcases hu : f.statusUpdate with _ | e
  · right
    simp [bookingService.ConfirmFn, eventRepository.GetByID, bookingRepository.UpdateStatus,
      Session.view, Session.run, applyLog, hrow, hc, eventRecord, Stmt.exec, hq, hn, hs, hu]
  · exact Or.inl ⟨e.toError, by simp [bookingService.ConfirmFn, eventRepository.GetByID,
      bookingRepository.UpdateStatus, Session.view, applyLog, hrow, hc, hq, hn, hs, hu]⟩

/-- Every outcome of `Confirm`: the tables are untouched and an error is returned, or the
event record requires confirmation and every reservation of that user for that event
has been set to confirmed (whether or not the commit then succeeded). -/
theorem Confirm_outcome (f : Faults) (db : DB) (bookID eventID userID : Int) :
    ((bookingService.Confirm f db bookID eventID userID).db = db ∧
      (bookingService.Confirm f db bookID eventID userID).result ≠ .returned none) ∨
    ((bookingService.Confirm f db bookID eventID userID).db =
        { db with booking := db.booking.map (setStatus StatusBookingConfirmed userID eventID) } ∧
      (eventRecord db eventID).BookingConfimation = true) := by
  simp only [bookingService.Confirm, Storage.WithTx]
  rcases ConfirmFn_cases f db bookID eventID userID with ⟨err, h⟩ | ⟨h, hc⟩
  · rw [h]
    cases f.ping <;> cases f.beginTx <;> simp
  · rw [h]
    cases f.ping <;> cases f.beginTx <;> cases f.commit <;> simp [applyLog, hc]

/-- C5 fails on the code. With no stored event under the requested ID and every database
call succeeding, `Book` returns `ErrEventAlreadyPassed` and `Confirm` returns
`ErrBookingNotRequired`; neither returns `ErrEventNotFound` (both leave the tables as
they were). -/
theorem C5_missing_event_errors :
    eventRow sampleDB 99 = none ∧
    bookingService.Book sampleEnv sampleDB { UserID := 8, EventID := 99 } =
      { db := sampleDB, calls := [.Rollback],
        result := .returned (some .ErrEventAlreadyPassed) } ∧
    bookingService.Confirm {} sampleDB 1 99 7 =
      { db := sampleDB, calls := [.Rollback],
        result := .returned (some .ErrBookingNotRequired) } := by
  decide

/-- C7. For a stored event that does not require confirmation, `Confirm` never returns
nil and leaves the tables exactly as they were; when the database calls before the test
succeed it returns `ErrBookingNotRequired`. -/
theorem C7_confirm_not_required (f : Faults) (db : DB) (bookID eventID userID : Int)
    (e : EventInRepo) (hrow : eventRow db eventID = some e)
    (hnc : e.BookingConfimation = false) :
    (bookingService.Confirm f db bookID eventID userID).db = db ∧
    (bookingService.Confirm f db bookID eventID userID).result ≠ .returned none ∧
    (f.ping = none → f.beginTx = none → f.eventQuery = none → f.eventNext = none →
      f.eventScan = none →
      (bookingService.Confirm f db bookID eventID userID).result
        = .returned (some .ErrBookingNotRequired)) := by
  have hrec : eventRecord db eventID = e := by simp [eventRecord, hrow]
  refine ⟨?_, ?_, ?_⟩
  · rcases Confirm_outcome f db bookID eventID userID with ⟨hdb, -⟩ | ⟨-, hc⟩
    · exact hdb
    · rw [hrec, hnc] at hc
      cases hc
  · rcases Confirm_outcome f db bookID eventID userID with ⟨-, hres⟩ | ⟨-, hc⟩
    · exact hres
    · rw [hrec, hnc] at hc
      cases hc
  · intro hp hb hq hn hs
    simp [bookingService.Confirm, Storage.WithTx, bookingService.ConfirmFn,
      eventRepository.GetByID, Session.view, applyLog, hp, hb, hq, hn, hs, hrow, hnc]

theorem C7_confirm_not_required_witness :
    (bookingService.Confirm {} openDB 1 4 7).db = openDB ∧
    (bookingService.Confirm {} openDB 1 4 7).result ≠ .returned none ∧
    (bookingService.Confirm {} openDB 1 4 7).result
      = .returned (some .ErrBookingNotRequired) :=
  ⟨(C7_confirm_not_required {} openDB 1 4 7 openEvent (by decide) rfl).1,
   (C7_confirm_not_required {} openDB 1 4 7 openEvent (by decide) rfl).2.1,
   (C7_confirm_not_required {} openDB 1 4 7 openEvent (by decide) rfl).2.2 rfl rfl rfl rfl rfl⟩

theorem setStatus_match (status : String) (r : BookingInRepo) :
    setStatus status r.UserID r.EventID r = { r with Status := status } := by
  simp [setStatus]

theorem setStatus_idem (status : String) (userID eventID : Int) (r : BookingInRepo) :
    setStatus status userID eventID (setStatus status userID eventID r)
      = setStatus status userID eventID r := by
  unfold setStatus
  split <;> simp_all

/-- C8. When `Confirm` returns nil, the stored event requires confirmation, and every
stored reservation matching the reservation, event and user identifiers is, at its
place in the table, the same row with status confirmed. -/
theorem C8_confirm_sets_confirmed (f : Faults) (db : DB) (bookID eventID userID : Int)
    (i : Nat) (r : BookingInRepo) (hr : db.booking[i]? = some r)
    (_hid : r.ID = bookID) (hev : r.EventID = eventID) (hu : r.UserID = userID)
    (hok : (bookingService.Confirm f db bookID eventID userID).result = .returned none) :
    (bookingService.Confirm f db bookID eventID userID).db.booking[i]?
      = some { r with Status := StatusBookingConfirmed } ∧
    (∃ e, eventRow db eventID = some e ∧ e.BookingConfimation = true) := by
  rcases Confirm_outcome f db bookID eventID userID with ⟨-, hres⟩ | ⟨hdb, hc⟩
  · exact absurd hok hres
  · refine ⟨?_, ?_⟩
    · rw [hdb]
      simp only [List.getElem?_map, hr, Option.map_some']
      rw [← hev, ← hu, setStatus_match]
    · cases hrow : eventRow db eventID with
      | none => simp [eventRecord, hrow, EventInRepo.zero] at hc
      | some e => exact ⟨e, rfl, by simpa [eventRecord, hrow] using hc⟩

theorem C8_confirm_sets_confirmed_witness :
    (bookingService.Confirm {} sampleDB 1 3 7).db.booking[0]?
      = some { ID := 1, UserID := 7, EventID := 3, Status := "confirmed", ExpiresAt := 150,
               CreatedAt := 100 } ∧
    (∃ e, eventRow sampleDB 3 = some e ∧ e.BookingConfimation = true) :=
  C8_confirm_sets_confirmed {} sampleDB 1 3 7 0
    { ID := 1, UserID := 7, EventID := 3, Status := "pending", ExpiresAt := 150, CreatedAt := 100 }
    (by decide) rfl rfl rfl (by decide)

/-- A successful `CancelBook` sets every reservation of that user for that event to
cancelled; a failed one changes nothing. -/
theorem CancelBook_outcome (f : Faults) (db : DB) (bookID eventID userID : Int) :
    ((bookingService.CancelBook f db bookID eventID userID).2 = none ∧
      (bookingService.CancelBook f db bookID eventID userID).1 =
        { db with booking := db.booking.map (setStatus StatusBookingCanceled userID eventID) }) ∨
    ((bookingService.CancelBook f db bookID eventID userID).2 ≠ none ∧
      (bookingService.CancelBook f db bookID eventID userID).1 = db) := by
  cases h : f.statusUpdate <;>
    simp [bookingService.CancelBook, bookingRepository.UpdateStatus, Session.run, Stmt.exec, h]

/-- C9. `CancelBook` is an idempotent overwrite. (1) When it returns nil, a stored
reservation matching the reservation, event and user identifiers is, whatever its status
was, the same row with status cancelled. (2) When it returns nil, a second `CancelBook`
with the same arguments, successful or not, leaves the tables as the first one left them.
(3) When `Book`, then `Confirm` and `CancelBook` on the row just booked, all return nil,
that row is the last of the booking table and its status is cancelled. -/
theorem C9_cancel_idempotent_overwrite (f f2 fc : Faults) (env : BookEnv) (db : DB)
    (b : BookingInCreate) (bookID eventID userID : Int) (i : Nat) (r : BookingInRepo) :
    ((bookingService.CancelBook f db bookID eventID userID).2 = none →
      db.booking[i]? = some r → r.ID = bookID → r.EventID = eventID → r.UserID = userID →
      (bookingService.CancelBook f db bookID eventID userID).1.booking[i]?
        = some { r with Status := StatusBookingCanceled }) ∧
    ((bookingService.CancelBook f db bookID eventID userID).2 = none →
      (bookingService.CancelBook f2
          (bookingService.CancelBook f db bookID eventID userID).1 bookID eventID userID).1
        = (bookingService.CancelBook f db bookID eventID userID).1) ∧
    ((bookingService.Book env db b).result = .returned none →
      (bookingService.Confirm fc (bookingService.Book env db b).db
          env.newID b.EventID b.UserID).result = .returned none →
      (bookingService.CancelBook f
          (bookingService.Confirm fc (bookingService.Book env db b).db
            env.newID b.EventID b.UserID).db
          env.newID b.EventID b.UserID).2 = none →
      ∃ row : BookingInRepo,
        (bookingService.CancelBook f
            (bookingService.Confirm fc (bookingService.Book env db b).db
              env.newID b.EventID b.UserID).db
            env.newID b.EventID b.UserID).1.booking.getLast? = some row ∧
        row.ID = env.newID ∧ row.UserID = b.UserID ∧ row.EventID = b.EventID ∧
        row.Status = StatusBookingCanceled) := by
  refine ⟨?_, ?_, ?_⟩
  · intro hok hr _ hev hu
    rcases CancelBook_outcome f db bookID eventID userID with ⟨-, hdb⟩ | ⟨hne, -⟩
    · rw [hdb]
      simp only [List.getElem?_map, hr, Option.map_some']
      rw [← hev, ← hu, setStatus_match]
    · exact absurd hok hne
  · intro hok
    rcases CancelBook_outcome f db bookID eventID userID with ⟨-, hdb⟩ | ⟨hne, -⟩
    · rcases CancelBook_outcome f2 (bookingService.CancelBook f db bookID eventID userID).1
        bookID eventID userID with ⟨-, hdb2⟩ | ⟨-, hdb2⟩
      · rw [hdb2, hdb]
        simp [List.map_map, Function.comp_def, setStatus_idem]
      · exact hdb2
    · exact absurd hok hne
  · intro hB hC hX
    rcases Book_outcome env db b with ⟨-, hres⟩ | ⟨-, hdb1, -, -⟩
    · exact absurd hB hres
    rcases Confirm_outcome fc (bookingService.Book env db b).db env.newID b.EventID b.UserID
      with ⟨-, hres⟩ | ⟨hdb2, -⟩
    · exact absurd hC hres
    rcases CancelBook_outcome f
      (bookingService.Confirm fc (bookingService.Book env db b).db
        env.newID b.EventID b.UserID).db env.newID b.EventID b.UserID
      with ⟨-, hdb3⟩ | ⟨hne, -⟩
    swap
    · exact absurd hX hne
    refine ⟨{ bookedRow env b (eventRecord db b.EventID) with Status := StatusBookingCanceled },
      ?_, rfl, rfl, rfl, rfl⟩
    rw [hdb3, hdb2, hdb1]
    simp [List.getLast?_append, setStatus, bookedRow]

theorem C9_cancel_idempotent_overwrite_witness :
    (bookingService.CancelBook {} sampleDB 1 3 7).1.booking[0]?
      = some { ID := 1, UserID := 7, EventID := 3, Status := "cancelled", ExpiresAt := 150,
               CreatedAt := 100 } ∧
    (bookingService.CancelBook {} (bookingService.CancelBook {} sampleDB 1 3 7).1 1 3 7).1
      = (bookingService.CancelBook {} sampleDB 1 3 7).1 ∧
    ∃ row : BookingInRepo,
      (bookingService.CancelBook {}
          (bookingService.Confirm {}
            (bookingService.Book sampleEnv sampleDB { UserID := 8, EventID := 3 }).db
            2 3 8).db 2 3 8).1.booking.getLast? = some row ∧
      row.ID = 2 ∧ row.UserID = 8 ∧ row.EventID = 3 ∧ row.Status = StatusBookingCanceled :=
  ⟨(C9_cancel_idempotent_overwrite {} {} {} sampleEnv sampleDB { UserID := 8, EventID := 3 }
      1 3 7 0
      { ID := 1, UserID := 7, EventID := 3, Status := "pending", ExpiresAt := 150,
        CreatedAt := 100 }).1 (by decide) (by decide) rfl rfl rfl,
   (C9_cancel_idempotent_overwrite {} {} {} sampleEnv sampleDB { UserID := 8, EventID := 3 }
      1 3 7 0
      { ID := 1, UserID := 7, EventID := 3, Status := "pending", ExpiresAt := 150,
        CreatedAt := 100 }).2.1 (by decide),
   (C9_cancel_idempotent_overwrite {} {} {} sampleEnv sampleDB { UserID := 8, EventID := 3 }
      1 3 7 0
      { ID := 1, UserID := 7, EventID := 3, Status := "pending", ExpiresAt := 150,
        CreatedAt := 100 }).2.2 (by decide) (by decide) (by decide)⟩

/-- C10 fails on the code. With two reservations of one user for one event stored,
`CancelBook` and `Confirm` called for reservation 1 also change reservation 2: both rows
end cancelled, respectively confirmed. -/
theorem C10_other_reservation_changed :
    (bookingService.CancelBook {} twoDB 1 3 7).2 = none ∧
    (bookingService.CancelBook {} twoDB 1 3 7).1.booking =
      [{ ID := 1, UserID := 7, EventID := 3, Status := "cancelled", ExpiresAt := 150, CreatedAt := 100 },
       { ID := 2, UserID := 7, EventID := 3, Status := "cancelled", ExpiresAt := 160, CreatedAt := 110 }] ∧
    (bookingService.Confirm {} twoDB 1 3 7).result = .returned none ∧
    (bookingService.Confirm {} twoDB 1 3 7).db.booking =
      [{ ID := 1, UserID := 7, EventID := 3, Status := "confirmed", ExpiresAt := 150, CreatedAt := 100 },
       { ID := 2, UserID := 7, EventID := 3, Status := "confirmed", ExpiresAt := 160, CreatedAt := 110 }] := by
  decide

/-! ## Capacity and atomicity of Confirm, the transaction scope, overlapping calls -/

/-- C11 fails on the code. On an event with one place: user 7 books and cancels, user 9
books the freed place, then user 7 calls `Confirm`. Before that call the occupied count
is 1, within `TotalPlace`; the call returns nil and sets the cancelled reservation to
confirmed, so the occupied count is 2, above `TotalPlace`. -/
theorem C11_confirm_exceeds_capacity :
    (bookingService.Book firstEnv smallDB { UserID := 7, EventID := 5 }).result
      = .returned none ∧
    (bookingService.Book secondEnv
      (bookingService.CancelBook {}
        (bookingService.Book firstEnv smallDB { UserID := 7, EventID := 5 }).db 1 5 7).1
      { UserID := 9, EventID := 5 }) =
      { db := { events := [smallEvent],
                booking :=
                  [{ ID := 1, UserID := 7, EventID := 5, Status := "cancelled", ExpiresAt := 251,
                     CreatedAt := 202 },
                   { ID := 2, UserID := 9, EventID := 5, Status := "pending", ExpiresAt := 261,
                     CreatedAt := 212 }] },
        calls := [.Commit], result := .returned none } ∧
    occupied { events := [smallEvent],
               booking :=
                 [{ ID := 1, UserID := 7, EventID := 5, Status := "cancelled", ExpiresAt := 251,
                    CreatedAt := 202 },
                  { ID := 2, UserID := 9, EventID := 5, Status := "pending", ExpiresAt := 261,
                    CreatedAt := 212 }] } 5 = 1 ∧
    smallEvent.TotalPlace = 1 ∧
    (bookingService.Confirm {}
      { events := [smallEvent],
        booking :=
          [{ ID := 1, UserID := 7, EventID := 5, Status := "cancelled", ExpiresAt := 251,
             CreatedAt := 202 },
           { ID := 2, UserID := 9, EventID := 5, Status := "pending", ExpiresAt := 261,
             CreatedAt := 212 }] } 1 5 7).result = .returned none ∧
    occupied (bookingService.Confirm {}
      { events := [smallEvent],
        booking :=
          [{ ID := 1, UserID := 7, EventID := 5, Status := "cancelled", ExpiresAt := 251,
             CreatedAt := 202 },
           { ID := 2, UserID := 9, EventID := 5, Status := "pending", ExpiresAt := 261,
             CreatedAt := 212 }] } 1 5 7).db 5 = 2 := by
  decide

/-- C12 fails on the code. When the update succeeds and the commit of the transaction
fails, `Confirm` returns the commit error, yet the reservation is already confirmed in
the committed tables: the update ran on the pool, outside the transaction. -/
theorem C12_confirm_error_after_change :
    bookingService.Confirm commitFails sampleDB 1 3 7 =
      { db := { events := [sampleEvent],
                booking := [{ ID := 1, UserID := 7, EventID := 3, Status := "confirmed",
                              ExpiresAt := 150, CreatedAt := 100 }] },
        calls := [.Commit],
        result := .returned (some (.wrapf "commit failed" (.driver "connection reset"))) } ∧
    sampleDB.booking = [{ ID := 1, UserID := 7, EventID := 3, Status := "pending",
                          ExpiresAt := 150, CreatedAt := 100 }] := by
  decide

/-- C13. Once `PingContext` and `BeginTx` have succeeded, `WithTx` calls `Commit` if and
only if `fn` returns nil, and then calls no `Rollback`; the statements `fn` ran on the
transaction reach the tables exactly when that commit succeeds. When `fn` returns an
error the only call on the transaction is `Rollback`, its statements are discarded and
`WithTx` returns that very error; when `fn` panics the only call is `Rollback`, its
statements are discarded and the same panic value propagates. -/
theorem C13_withTx_commit_iff_nil (f : Faults) (db : DB) (fn : Session → Session × FnResult)
    (hp : f.ping = none) (hb : f.beginTx = none) :
    (TxCall.Commit ∈ (Storage.WithTx f db fn).calls ↔
      (fn { db := db, txlog := [] }).2 = .returned none) ∧
    ((fn { db := db, txlog := [] }).2 = .returned none →
      (Storage.WithTx f db fn).calls = [.Commit] ∧
      (f.commit = none →
        (Storage.WithTx f db fn).result = .returned none ∧
        (Storage.WithTx f db fn).db =
          applyLog (fn { db := db, txlog := [] }).1.txlog (fn { db := db, txlog := [] }).1.db) ∧
      (f.commit ≠ none →
        (Storage.WithTx f db fn).result ≠ .returned none ∧
        (Storage.WithTx f db fn).db = (fn { db := db, txlog := [] }).1.db)) ∧
    (∀ e : GoError, (fn { db := db, txlog := [] }).2 = .returned (some e) →
      (Storage.WithTx f db fn).calls = [.Rollback] ∧
      (Storage.WithTx f db fn).result = .returned (some e) ∧
      (Storage.WithTx f db fn).db = (fn { db := db, txlog := [] }).1.db) ∧
    (∀ v : String, (fn { db := db, txlog := [] }).2 = .panicked v →
      (Storage.WithTx f db fn).calls = [.Rollback] ∧
      (Storage.WithTx f db fn).result = .panicked v ∧
      (Storage.WithTx f db fn).db = (fn { db := db, txlog := [] }).1.db) := by
  rcases hfn : fn { db := db, txlog := [] } with ⟨s, r⟩
  cases r with
  | panicked v => simp [Storage.WithTx, hp, hb, hfn]
  | returned err =>
    cases err with
    | some e => simp [Storage.WithTx, hp, hb, hfn]
    | none => cases hc : f.commit <;> simp [Storage.WithTx, hp, hb, hfn, hc]

theorem C13_withTx_commit_iff_nil_witness :
    TxCall.Commit ∈ (Storage.WithTx {} sampleDB
      (bookingService.BookFn sampleEnv { UserID := 8, EventID := 3 })).calls ∧
    ((Storage.WithTx {} sampleDB
        (bookingService.BookFn lateEnv { UserID := 8, EventID := 3 })).calls = [.Rollback] ∧
      (Storage.WithTx {} sampleDB
        (bookingService.BookFn lateEnv { UserID := 8, EventID := 3 })).result
        = .returned (some .ErrEventAlreadyPassed) ∧
      (Storage.WithTx {} sampleDB
        (bookingService.BookFn lateEnv { UserID := 8, EventID := 3 })).db = sampleDB) ∧
    ((Storage.WithTx {} sampleDB (fun s => (s, .panicked "nil map"))).calls = [.Rollback] ∧
      (Storage.WithTx {} sampleDB (fun s => (s, .panicked "nil map"))).result
        = .panicked "nil map" ∧
      (Storage.WithTx {} sampleDB (fun s => (s, .panicked "nil map"))).db = sampleDB) :=
  ⟨(C13_withTx_commit_iff_nil {} sampleDB
      (bookingService.BookFn sampleEnv { UserID := 8, EventID := 3 }) rfl rfl).1.mpr (by decide),
   (C13_withTx_commit_iff_nil {} sampleDB
      (bookingService.BookFn lateEnv { UserID := 8, EventID := 3 }) rfl rfl).2.2.1
      .ErrEventAlreadyPassed (by decide),
   (C13_withTx_commit_iff_nil {} sampleDB (fun s => (s, .panicked "nil map")) rfl rfl).2.2.2
      "nil map" rfl⟩

/-- With `PingContext` and `BeginTx` successful, `WithTx` is its body followed by the end of
the transaction. -/
theorem WithTx_eq_endTx (f : Faults) (db : DB) (fn : Session → Session × FnResult)
    (hp : f.ping = none) (hb : f.beginTx = none) :
    Storage.WithTx f db fn =
      Storage.endTx f (fn { db := db, txlog := [] }).1 (fn { db := db, txlog := [] }).2 := by
  rcases hfn : fn { db := db, txlog := [] } with ⟨s, r⟩
  cases r with
  | panicked v => simp [Storage.WithTx, Storage.endTx, hp, hb, hfn]
  | returned err =>
    cases err with
    | some e => simp [Storage.WithTx, Storage.endTx, hp, hb, hfn]
    | none => cases hc : f.commit <;> simp [Storage.WithTx, Storage.endTx, hp, hb, hfn, hc]

/-- C14 fails on the code. On an event with one place and no reservation, two calls of
`Book` whose transactions overlap (each body reads the occupied count before the other
commits) both return nil, neither returns `ErrNoSeatsAvailable`, and two pending
reservations are stored for the single place. Run one after the other, the same two
calls give one reservation and `ErrNoSeatsAvailable`. -/
theorem C14_overlapping_books_overbook :
    overlappedBook firstEnv secondEnv smallDB { UserID := 7, EventID := 5 }
        { UserID := 9, EventID := 5 } =
      ({ db := { events := [smallEvent],
                 booking :=
                   [{ ID := 1, UserID := 7, EventID := 5, Status := "pending", ExpiresAt := 251,
                      CreatedAt := 202 }] },
         calls := [.Commit], result := .returned none },
       { db := { events := [smallEvent],
                 booking :=
                   [{ ID := 1, UserID := 7, EventID := 5, Status := "pending", ExpiresAt := 251,
                      CreatedAt := 202 },
                    { ID := 2, UserID := 9, EventID := 5, Status := "pending", ExpiresAt := 261,
                      CreatedAt := 212 }] },
         calls := [.Commit], result := .returned none }) ∧
    occupied (overlappedBook firstEnv secondEnv smallDB { UserID := 7, EventID := 5 }
        { UserID := 9, EventID := 5 }).2.db 5 = 2 ∧
    smallEvent.TotalPlace = 1 ∧
    (bookingService.Book secondEnv
        (bookingService.Book firstEnv smallDB { UserID := 7, EventID := 5 }).db
        { UserID := 9, EventID := 5 }).result = .returned (some .ErrNoSeatsAvailable) := by
  decide

/-! ## Properties of the expiration sweep -/

theorem mem_expiredJoin {d : DB} {now : Time} {j : BookingInRepo × EventInRepo × UserInRepo}
    (h : j ∈ expiredJoin d now) :
    j.1 ∈ d.booking ∧ j.1.ExpiresAt < now ∧ j.1.Status = "pending" := by
  simp only [expiredJoin, List.mem_flatMap, List.mem_filter, List.mem_map] at h
  obtain ⟨b, ⟨hb, hcond⟩, e, -, u, -, rfl⟩ := h
  simp only [Bool.and_eq_true, decide_eq_true_eq] at hcond
  exact ⟨hb, hcond.1, hcond.2⟩

theorem scanExpired_id {scanErr : Option DriverError}
    {j : BookingInRepo × EventInRepo × UserInRepo} {x : BookingGetForTG}
    (h : scanExpired scanErr j = .ok x) : x.ID = j.1.ID := by
  obtain ⟨b, e, u⟩ := j
  cases scanErr with
  | some err => simp [scanExpired] at h
  | none =>
    cases hu : u.TgChatID with
    | none => simp [scanExpired, hu] at h
    | some chat =>
      simp [scanExpired, hu] at h
      rw [← h]

theorem scanExpiredRows_mem {scanErr : Option DriverError} :
    ∀ {l : List (BookingInRepo × EventInRepo × UserInRepo)} {rows : List BookingGetForTG},
      scanExpiredRows scanErr l = .ok rows →
      ∀ x ∈ rows, ∃ j ∈ l, scanExpired scanErr j = .ok x
  | [], rows, h, x, hx => by
      simp [scanExpiredRows] at h
      subst h
      cases hx
  | j :: l, rows, h, x, hx => by
      simp only [scanExpiredRows] at h
      cases hj : scanExpired scanErr j with
      | error err => simp [hj] at h
      | ok y =>
        cases hl : scanExpiredRows scanErr l with
        | error err => simp [hj, hl] at h
        | ok ys =>
          simp [hj, hl] at h
          subst h
          rcases List.mem_cons.mp hx with rfl | hx
          · exact ⟨j, List.mem_cons_self _ _, hj⟩
          · obtain ⟨j2, hj2, hs⟩ := scanExpiredRows_mem hl x hx
            exact ⟨j2, List.mem_cons_of_mem _ hj2, hs⟩

/-- Every message pushed in an iteration was built from a row scanned out of the join of
the selection. -/
theorem tick_pushed_from_join (env : SweepEnv) (db : DB) :
    ∀ m ∈ (SchedulerService.tick env db).pushed,
      ∃ j ∈ expiredJoin db env.nowSelect, ∃ x, scanExpired env.expiredScan j = .ok x ∧
        m = buildMessage env.timeString x := by
  intro m hm
  have hsub : ∀ rows : List BookingGetForTG,
      (∀ x ∈ rows, ∃ j ∈ expiredJoin db env.nowSelect, scanExpired env.expiredScan j = .ok x) →
      ∀ l : List RetryMessage, (∀ y ∈ l, y ∈ rows.map (buildMessage env.timeString)) →
      m ∈ l → ∃ j ∈ expiredJoin db env.nowSelect, ∃ x,
        scanExpired env.expiredScan j = .ok x ∧ m = buildMessage env.timeString x := by
    intro rows hrows l hl hml
    obtain ⟨x, hx, rfl⟩ := List.mem_map.mp (hl m hml)
    obtain ⟨j, hj, hs⟩ := hrows x hx
    exact ⟨j, hj, x, hs, rfl⟩
  have hsel : ∀ rows : List BookingGetForTG,
      bookingRepository.GetExpiredBooking .pool { db := db, txlog := [] } env.nowSelect
        env.expiredQuery env.expiredNext env.expiredScan = .ok rows →
      ∀ x ∈ rows, ∃ j ∈ expiredJoin db env.nowSelect, scanExpired env.expiredScan j = .ok x := by
    intro rows hok x hx
    simp only [bookingRepository.GetExpiredBooking, Session.view] at hok
    cases hq : env.expiredQuery with
    | some err => simp [hq] at hok
    | none =>
      cases hn : env.expiredNext with
      | none =>
        simp only [hq, hn] at hok
        exact scanExpiredRows_mem hok x hx
      | some n =>
        simp only [hq, hn] at hok
        obtain ⟨j, hj, hs⟩ := scanExpiredRows_mem hok x hx
        exact ⟨j, List.mem_of_mem_take hj, hs⟩
  simp only [SchedulerService.tick] at hm
  cases hget : bookingRepository.GetExpiredBooking .pool { db := db, txlog := [] } env.nowSelect
      env.expiredQuery env.expiredNext env.expiredScan with
  | error err =>
    simp only [hget] at hm
    cases hc : env.cancelAt <;> simp [hc] at hm
  | ok rows =>
    simp only [hget] at hm
    cases hc : env.cancelAt with
    | none =>
      simp only [hc] at hm
      exact hsub rows (hsel rows hget) _ (fun y hy => hy) hm
    | some n =>
      simp only [hc] at hm
      split at hm
      · exact hsub rows (hsel rows hget) _ (fun y hy => List.mem_of_mem_take hy) hm
      · exact hsub rows (hsel rows hget) _ (fun y hy => hy) hm

/-- The booking table after an iteration is the old one, or the old one without its
pending rows whose expiry is before the clock reading of the delete. -/
theorem tick_db (env : SweepEnv) (db : DB) :
    (SchedulerService.tick env db).db = db ∨
    (SchedulerService.tick env db).db =
      { db with booking := db.booking.filter fun r =>
          !(decide (r.Status = "pending") && decide (r.ExpiresAt < env.nowDelete)) } := by
  have hdel : SchedulerService.deleteExpiredBooking env db = db ∨
      SchedulerService.deleteExpiredBooking env db =
        { db with booking := db.booking.filter fun r =>
            !(decide (r.Status = "pending") && decide (r.ExpiresAt < env.nowDelete)) } := by
    cases hd : env.deleteExec <;>
      simp [SchedulerService.deleteExpiredBooking, bookingRepository.DeleteExpiredBooking,
        Session.run, Stmt.exec, hd]
  simp only [SchedulerService.tick]
  cases hc : env.cancelAt with
  | none => exact hdel
  | some n =>
    simp only []
    split
    · exact Or.inl rfl
    · exact hdel

/-- C15. A stored reservation whose status is confirmed or cancelled, whatever its
`ExpiresAt`, is still stored after a sweep iteration, no row of the selection join is
that reservation, and every message pushed in the iteration was built from the row of
a pending reservation, hence of another one. This holds for every outcome of the
database calls and of the cancellation. -/
theorem C15_expiry_exclusivity (env : SweepEnv) (db : DB) (r : BookingInRepo)
    (hr : r ∈ db.booking)
    (hst : r.Status = StatusBookingConfirmed ∨ r.Status = StatusBookingCanceled) :
    r ∈ (SchedulerService.tick env db).db.booking ∧
    (∀ j ∈ expiredJoin db env.nowSelect, j.1 ≠ r) ∧
    (∀ m ∈ (SchedulerService.tick env db).pushed,
      ∃ j ∈ expiredJoin db env.nowSelect, j.1 ≠ r ∧ j.1.Status = StatusBookingPending ∧
        ∃ x, scanExpired env.expiredScan j = .ok x ∧ m = buildMessage env.timeString x) := by
  have hnp : r.Status ≠ "pending" := by
    rcases hst with h | h <;> rw [h] <;> decide
  have hne : ∀ j ∈ expiredJoin db env.nowSelect, j.1 ≠ r := by
    intro j hj heq
    exact hnp (heq ▸ (mem_expiredJoin hj).2.2)
  refine ⟨?_, hne, ?_⟩
  · rcases tick_db env db with h | h
    · rw [h]
      exact hr
    · rw [h]
      simp only [List.mem_filter]
      exact ⟨hr, by simp [hnp]⟩
  · intro m hm
    obtain ⟨j, hj, x, hs, hmx⟩ := tick_pushed_from_join env db m hm
    exact ⟨j, hj, hne j hj, (mem_expiredJoin hj).2.2, x, hs, hmx⟩

theorem C15_expiry_exclusivity_witness :
    ({ ID := 2, UserID := 7, EventID := 3, Status := "confirmed", ExpiresAt := 120,
       CreatedAt := 70 } : BookingInRepo) ∈ (SchedulerService.tick sweepEnv sweepDB).db.booking ∧
    (∀ j ∈ expiredJoin sweepDB sweepEnv.nowSelect,
      j.1 ≠ { ID := 2, UserID := 7, EventID := 3, Status := "confirmed", ExpiresAt := 120,
              CreatedAt := 70 }) ∧
    (∀ m ∈ (SchedulerService.tick sweepEnv sweepDB).pushed,
      ∃ j ∈ expiredJoin sweepDB sweepEnv.nowSelect,
        j.1 ≠ { ID := 2, UserID := 7, EventID := 3, Status := "confirmed", ExpiresAt := 120,
                CreatedAt := 70 } ∧ j.1.Status = StatusBookingPending ∧
        ∃ x, scanExpired sweepEnv.expiredScan j = .ok x ∧
          m = buildMessage sweepEnv.timeString x) :=
  C15_expiry_exclusivity sweepEnv sweepDB
    { ID := 2, UserID := 7, EventID := 3, Status := "confirmed", ExpiresAt := 120, CreatedAt := 70 }
    (by decide) (Or.inl rfl)

theorem scanExpiredRows_ids {scanErr : Option DriverError} :
    ∀ {l : List (BookingInRepo × EventInRepo × UserInRepo)} {rows : List BookingGetForTG},
      scanExpiredRows scanErr l = .ok rows →
      rows.map (fun x => x.ID) = l.map (fun j => j.1.ID)
  | [], rows, h => by
      simp [scanExpiredRows] at h
      subst h
      rfl
  | j :: l, rows, h => by
      simp only [scanExpiredRows] at h
      cases hj : scanExpired scanErr j with
      | error err => simp [hj] at h
      | ok y =>
        cases hl : scanExpiredRows scanErr l with
        | error err => simp [hj, hl] at h
        | ok ys =>
          simp [hj, hl] at h
          subst h
          simp [scanExpired_id hj, scanExpiredRows_ids hl]

/-- Under the key and reference constraints the join has exactly one row for each
selected reservation, in the order of the booking table. -/
theorem join_bookings (d : DB) (hint : d.Integrity) :
    ∀ l : List BookingInRepo, (∀ b ∈ l, b ∈ d.booking) →
      (l.flatMap fun b => (d.events.filter fun e => decide (b.EventID = e.ID)).flatMap
        fun e => (d.users.filter fun u => decide (b.UserID = u.ID)).map fun u => (b, e, u)).map
        (fun j => j.1) = l
  | [], _ => rfl
  | b :: l, hl => by
      obtain ⟨e0, he0⟩ := List.length_eq_one.mp (hint.2 b (hl b (List.mem_cons_self _ _))).1
      obtain ⟨u0, hu0⟩ := List.length_eq_one.mp (hint.2 b (hl b (List.mem_cons_self _ _))).2
      have ih := join_bookings d hint l (fun x hx => hl x (List.mem_cons_of_mem _ hx))
      simp only [List.flatMap_cons, List.map_append, ih, he0, hu0, List.flatMap_nil,
        List.map_cons, List.map_nil, List.append_nil, List.singleton_append]

theorem expiredJoin_bookings (d : DB) (now : Time) (hint : d.Integrity) :
    (expiredJoin d now).map (fun j => j.1) =
      d.booking.filter fun b => decide (b.ExpiresAt < now) && decide (b.Status = "pending") :=
  join_bookings d hint _ (fun _ hb => (List.mem_filter.mp hb).1)

/-- C16. Under the key and reference constraints of the tables, in a sweep iteration
whose selection returns `rows` with a nil error and without a failed fetch, whose delete
succeeds, in which no cancellation is taken, and whose two clock readings are in order:
the messages pushed are exactly those built from `rows`, one per row in order; a
reservation that was pending with `ExpiresAt` before the clock reading of the selection
has exactly one row, so exactly one message; no reservation has two rows; and after the
iteration no stored reservation carries its identifier. -/
theorem C16_sweep_completeness (env : SweepEnv) (db : DB) (rows : List BookingGetForTG)
    (r : BookingInRepo) (hint : db.Integrity)
    (hsel : bookingRepository.GetExpiredBooking .pool { db := db, txlog := [] } env.nowSelect
      env.expiredQuery env.expiredNext env.expiredScan = .ok rows)
    (hnext : env.expiredNext = none) (hdel : env.deleteExec = none)
    (hcancel : env.cancelAt = none) (hclock : env.nowSelect ≤ env.nowDelete)
    (hr : r ∈ db.booking) (hpend : r.Status = StatusBookingPending)
    (hexp : r.ExpiresAt < env.nowSelect) :
    (SchedulerService.tick env db).pushed = rows.map (buildMessage env.timeString) ∧
    (rows.map fun x => x.ID).count r.ID = 1 ∧
    (rows.map fun x => x.ID).Nodup ∧
    r ∉ (SchedulerService.tick env db).db.booking ∧
    (∀ b ∈ (SchedulerService.tick env db).db.booking, b.ID ≠ r.ID) := by
  have hids : rows.map (fun x => x.ID) =
      (db.booking.filter fun b =>
        decide (b.ExpiresAt < env.nowSelect) && decide (b.Status = "pending")).map
        (fun b => b.ID) := by
    cases hq : env.expiredQuery with
    | some err => simp [bookingRepository.GetExpiredBooking, hq] at hsel
    | none =>
      simp only [bookingRepository.GetExpiredBooking, Session.view, hq, hnext] at hsel
      rw [scanExpiredRows_ids hsel, ← expiredJoin_bookings db env.nowSelect hint, List.map_map]
      rfl
  have hnodup : (rows.map fun x => x.ID).Nodup := by
    rw [hids]
    exact List.Nodup.sublist ((List.filter_sublist _).map _) hint.1
  have hmem : r.ID ∈ rows.map fun x => x.ID := by
    rw [hids]
    refine List.mem_map.mpr ⟨r, List.mem_filter.mpr ⟨hr, ?_⟩, rfl⟩
    simp [hexp, hpend, StatusBookingPending]
  have hdb : (SchedulerService.tick env db).db.booking =
      db.booking.filter fun b =>
        !(decide (b.Status = "pending") && decide (b.ExpiresAt < env.nowDelete)) := by
    simp [SchedulerService.tick, SchedulerService.deleteExpiredBooking,
      bookingRepository.DeleteExpiredBooking, Session.run, Stmt.exec, hcancel, hdel]
  have hgone : r ∉ (SchedulerService.tick env db).db.booking := by
    rw [hdb]
    intro h
    have h2 := (List.mem_filter.mp h).2
    have hlt : r.ExpiresAt < env.nowDelete := lt_of_lt_of_le hexp hclock
    simp [hpend, StatusBookingPending, hlt] at h2
  refine ⟨?_, List.count_eq_one_of_mem hnodup hmem, hnodup, hgone, ?_⟩
  · simp [SchedulerService.tick, hsel, hcancel]
  · intro b hb hid
    have hb0 : b ∈ db.booking := by
      rw [hdb] at hb
      exact (List.mem_filter.mp hb).1
    have hbr : b = r := List.inj_on_of_nodup_map hint.1 hb0 hr hid
    exact hgone (hbr ▸ hb)

theorem C16_sweep_completeness_witness :
    (SchedulerService.tick sweepEnv sweepDB).pushed =
      [{ ID := 1, TgChatID := 555, EventDate := 1000, TitleEvent := "concert" }].map
        (buildMessage sweepEnv.timeString) ∧
    ([{ ID := 1, TgChatID := 555, EventDate := 1000, TitleEvent := "concert" }].map
      fun x : BookingGetForTG => x.ID).count 1 = 1 ∧
    ([{ ID := 1, TgChatID := 555, EventDate := 1000, TitleEvent := "concert" }].map
      fun x : BookingGetForTG => x.ID).Nodup ∧
    ({ ID := 1, UserID := 7, EventID := 3, Status := "pending", ExpiresAt := 150,
       CreatedAt := 100 } : BookingInRepo) ∉ (SchedulerService.tick sweepEnv sweepDB).db.booking ∧
    (∀ b ∈ (SchedulerService.tick sweepEnv sweepDB).db.booking, b.ID ≠ 1) :=
  C16_sweep_completeness sweepEnv sweepDB
    [{ ID := 1, TgChatID := 555, EventDate := 1000, TitleEvent := "concert" }]
    { ID := 1, UserID := 7, EventID := 3, Status := "pending", ExpiresAt := 150, CreatedAt := 100 }
    (by decide) rfl rfl rfl rfl (by decide) (by decide) rfl (by decide)

/-- C17 fails on the code. (1) The owner of an expired pending reservation has no chat
identifier: the selection fails in `Scan`, the error is only logged, no message is
pushed, and the delete still removes the reservation. (2) The hold of a reservation ends
between the clock reading of the selection and that of the delete: it is not selected,
no message is pushed, and the delete removes it. -/
theorem C17_deleted_without_notification :
    bookingRepository.GetExpiredBooking .pool { db := noChatDB, txlog := [] }
        sweepEnv.nowSelect sweepEnv.expiredQuery sweepEnv.expiredNext sweepEnv.expiredScan
      = .error (.driver "converting NULL to int64 is unsupported") ∧
    SchedulerService.tick sweepEnv noChatDB =
      { db := { events := [sampleEvent], booking := [], users := [userNoChat] },
        pushed := [], returned := false } ∧
    SchedulerService.tick straddleEnv sweepDB =
      { db := { events := [sampleEvent],
                booking := [{ ID := 2, UserID := 7, EventID := 3, Status := "confirmed",
                              ExpiresAt := 120, CreatedAt := 70 }],
                users := [userWithChat] },
        pushed := [], returned := false } :=
  ⟨rfl, by decide, by decide⟩

/-! ## Properties of the notification dispatcher -/

theorem wrap64_small {x : Int} (h0 : -9223372036854775808 ≤ x) (h1 : x < 9223372036854775808) :
    wrap64 x = x := by
  unfold wrap64
  omega

/-- The passes of a message whose counter starts at 0, whose every send fails and whose
retries are never cancelled. -/
theorem messageLife_allFail (sendErr : Nat → Option GoError) (ctxDone : Nat → Bool)
    (rm : RetryMessage) (fuel : Nat)
    (hfail : ∀ n, sendErr n ≠ none) (hdone : ∀ n, ctxDone n = false)
    (h0 : rm.Attempts = 0) :
    messageLife sendErr ctxDone (fuel + 5) 0 rm =
      some [(rm, some 3000000000),
            ({ rm with Attempts := 1 }, some 6000000000),
            ({ rm with Attempts := 2 }, some 9000000000),
            ({ rm with Attempts := 3 }, some 12000000000),
            ({ rm with Attempts := 4 }, none)] := by
  have hs : ∀ n, ∃ e, sendErr n = some e := fun n => Option.ne_none_iff_exists'.mp (hfail n)
  obtain ⟨e0, he0⟩ := hs 0
  obtain ⟨e1, he1⟩ := hs 1
  obtain ⟨e2, he2⟩ := hs 2
  obtain ⟨e3, he3⟩ := hs 3
  obtain ⟨e4, he4⟩ := hs 4
  obtain ⟨chat, attempts, text⟩ := rm
  simp only at h0
  subst h0
  simp [messageLife, TelegramBot.RetryWorkerStep, retryTask, retryDelay, maxRetry, wrap64,
    he0, he1, he2, he3, he4, hdone]

/-- C18. A message taken with `Attempts = 0`, with the bot present, every send failing and
no retry cancelled, lives exactly five passes of the worker loop, whatever the fuel
beyond five: it is sent five times, with counters 0 to 4 on entry; a retry is started
after each of the first four sends and none after the fifth, where the message is
dropped. -/
theorem C18_retry_bound (sendErr : Nat → Option GoError) (ctxDone : Nat → Bool)
    (rm : RetryMessage) (fuel : Nat)
    (hfail : ∀ n, sendErr n ≠ none) (hdone : ∀ n, ctxDone n = false)
    (h0 : rm.Attempts = 0) :
    ∃ passes : List (RetryMessage × Option Duration),
      messageLife sendErr ctxDone (fuel + 5) 0 rm = some passes ∧
      passes.length = 5 ∧
      (passes.filter fun p => p.2.isSome).length = 4 ∧
      passes.map (fun p => p.1.Attempts) = [0, 1, 2, 3, 4] ∧
      (passes.map fun p => p.2.isSome) = [true, true, true, true, false] ∧
      (TelegramBot.RetryWorkerStep false (sendErr 4) { rm with Attempts := 4 }).retry = none := by
  refine ⟨_, messageLife_allFail sendErr ctxDone rm fuel hfail hdone h0, rfl, rfl, ?_, rfl, ?_⟩
  · simp [h0]
  · obtain ⟨e4, he4⟩ := Option.ne_none_iff_exists'.mp (hfail 4)
    simp [TelegramBot.RetryWorkerStep, he4, wrap64, maxRetry]

theorem C18_retry_bound_witness :
    ∃ passes : List (RetryMessage × Option Duration),
      messageLife alwaysFails neverDone (95 + 5) 0 sampleMessage = some passes ∧
      passes.length = 5 ∧
      (passes.filter fun p => p.2.isSome).length = 4 ∧
      passes.map (fun p => p.1.Attempts) = [0, 1, 2, 3, 4] ∧
      (passes.map fun p => p.2.isSome) = [true, true, true, true, false] ∧
      (TelegramBot.RetryWorkerStep false (alwaysFails 4)
        { sampleMessage with Attempts := 4 }).retry = none :=
  C18_retry_bound alwaysFails neverDone sampleMessage 95 (fun _ => by simp [alwaysFails])
    (fun _ => rfl) rfl

/-- C19. When a send fails on a message whose counter is not negative and whose
incremented counter `a` is below 5, the retry started carries the counter `a` and its
delay is `a` times 3 seconds (in nanoseconds); the delays of the retries of a message
that starts at 0 and always fails are 3, 6, 9 and 12 seconds. -/
theorem C19_linear_backoff (err : GoError) (rm : RetryMessage)
    (sendErr : Nat → Option GoError) (ctxDone : Nat → Bool) (start : RetryMessage) (fuel : Nat)
    (hpos : 0 ≤ rm.Attempts) (hlt : rm.Attempts + 1 < 5)
    (hfail : ∀ n, sendErr n ≠ none) (hdone : ∀ n, ctxDone n = false)
    (h0 : start.Attempts = 0) :
    (TelegramBot.RetryWorkerStep false (some err) rm).retry =
      some ((rm.Attempts + 1) * 3 * 1000000000, { rm with Attempts := rm.Attempts + 1 }) ∧
    (messageLife sendErr ctxDone (fuel + 5) 0 start).map (fun passes => passes.map fun p => p.2) =
      some [some (3 * 1000000000), some (6 * 1000000000), some (9 * 1000000000),
            some (12 * 1000000000), none] := by
  constructor
  · have h1 : wrap64 (rm.Attempts + 1) = rm.Attempts + 1 := wrap64_small (by omega) (by omega)
    have h2 : wrap64 (3000000000 * (rm.Attempts + 1)) = (rm.Attempts + 1) * 3 * 1000000000 := by
      rw [wrap64_small (by omega) (by omega)]
      ring
    simp [TelegramBot.RetryWorkerStep, retryDelay, maxRetry, h1, h2, hlt]
  · rw [messageLife_allFail sendErr ctxDone start fuel hfail hdone h0]
    rfl

theorem C19_linear_backoff_witness :
    (TelegramBot.RetryWorkerStep false (some (.driver "telegram unreachable"))
        { sampleMessage with Attempts := 2 }).retry =
      some (((2 : Int) + 1) * 3 * 1000000000,
        { ChatID := 555, Attempts := (2 : Int) + 1, Text := "hold ended" }) ∧
    (messageLife alwaysFails neverDone (0 + 5) 0 sampleMessage).map
        (fun passes => passes.map fun p => p.2) =
      some [some (3 * 1000000000), some (6 * 1000000000), some (9 * 1000000000),
            some (12 * 1000000000), none] :=
  C19_linear_backoff (.driver "telegram unreachable") { sampleMessage with Attempts := 2 }
    alwaysFails neverDone sampleMessage 0 (by decide) (by decide)
    (fun _ => by simp [alwaysFails]) (fun _ => rfl) rfl

/-- C20. When the send of a message succeeds, the pass of the worker loop starts no
retry and leaves the message, its attempt counter included, as it was taken; the life
of the message ends with that pass. -/
theorem C20_success_discards (sendErr : Nat → Option GoError) (ctxDone : Nat → Bool)
    (rm : RetryMessage) (fuel n : Nat) (hok : sendErr n = none) :
    TelegramBot.RetryWorkerStep false (sendErr n) rm = { sent := true, rm := rm, retry := none } ∧
    messageLife sendErr ctxDone (fuel + 1) n rm = some [(rm, none)] := by
  simp [messageLife, TelegramBot.RetryWorkerStep, hok]

theorem C20_success_discards_witness :
    TelegramBot.RetryWorkerStep false none sampleMessage =
      { sent := true, rm := sampleMessage, retry := none } ∧
    messageLife (fun _ => none) neverDone (0 + 1) 0 sampleMessage = some [(sampleMessage, none)] :=
  C20_success_discards (fun _ => none) neverDone sampleMessage 0 0 rfl

/-! ## Properties of the listing of reservations -/

/-- C21 fails on the code. User 7 holds reservations at `(100, 5)`, `(200, 2)` and
`(300, 9)`, all lexicographically greater than the cursor `(100, 3)`. The query for mode
next, with page size 10, returns only the row at `(300, 9)`: the row created at the
cursor time with a greater identifier and the row created later with a smaller
identifier are both left out. -/
theorem C21_next_page_not_lexicographic :
    (bookingRepository.GetListBooking .pool { db := listDB, txlog := [] } {} nextRequest).result =
      .ok [{ ID := 9, UserID := 7, EventID := 3, Status := "pending", ExpiresAt := 350,
             CreatedAt := 300, EventTitle := "concert", EventDescription := "",
             EventDate := 1000 }] ∧
    (listDB.booking.filter fun b =>
      decide (b.UserID = 7) && decide (lexLt (100, 3) (BookingKey b))) = listDB.booking ∧
    listDB.booking.length = 3 :=
  ⟨rfl, by decide, by decide⟩

/-- Under the key and reference constraints the join with the events has exactly one row
for each selected reservation, in the order of the booking table. -/
theorem bookingJoin_bookings (d : DB) (hint : d.Integrity) (keep : BookingInRepo → Bool) :
    (bookingJoin d keep).map (fun x => x.1) = d.booking.filter keep := by
  have hgen : ∀ l : List BookingInRepo, (∀ b ∈ l, b ∈ d.booking) →
      (l.flatMap fun b =>
        (d.events.filter fun e => decide (b.EventID = e.ID)).map fun e => (b, e)).map
        (fun x => x.1) = l := by
    intro l
    induction l with
    | nil => intro _; rfl
    | cons b l ih =>
      intro hl
      obtain ⟨e0, he0⟩ := List.length_eq_one.mp (hint.2 b (hl b (List.mem_cons_self _ _))).1
      simp only [List.flatMap_cons, List.map_append, he0, List.map_cons, List.map_nil,
        List.singleton_append, ih (fun x hx => hl x (List.mem_cons_of_mem _ hx))]
  exact hgen _ (fun _ hb => (List.mem_filter.mp hb).1)

/-- With every call successful and a page size that is not negative, the reservations
of the rows returned for mode prev are the first `PageSize` selected reservations in
descending order. -/
theorem prev_page_rows (env : ListEnv) (db : DB) (req : BookingGetRequest)
    (hint : db.Integrity) (hmode : req.Mode = "prev") (hsize : 0 ≤ req.PageSize)
    (hq : env.queryErr = none) (hn : env.nextStop = none) (hs : env.scanErr = none) :
    ∃ rows : List BookingWithEventDetails,
      (bookingRepository.GetListBooking .pool { db := db, txlog := [] } env req).result
        = .ok rows ∧
      rows.map (fun x => x.toBookingInRepo) =
        ((db.booking.filter (prevWhere req)).insertionSort descOrder).take req.PageSize.toNat := by
  refine ⟨(((bookingJoin db (prevWhere req)).insertionSort fun x y => descOrder x.1 y.1).take
    req.PageSize.toNat).map scanListRow, ?_, ?_⟩
  · have hneg : ¬ req.PageSize < 0 := not_lt.mpr hsize
    simp [bookingRepository.GetListBooking, getQueryFromMode, hmode, hq, hn, hs, hneg,
      ListQuery.rows, Session.view]
  · rw [List.map_map]
    have hfst : ((fun x : BookingWithEventDetails => x.toBookingInRepo) ∘ scanListRow) =
        fun x : BookingInRepo × EventInRepo => x.1 := rfl
    rw [hfst, List.map_take,
      List.map_insertionSort (fun x y : BookingInRepo × EventInRepo => descOrder x.1 y.1)
        descOrder (fun x => x.1) _ (fun _ _ _ _ => Iff.rfl),
      bookingJoin_bookings db hint]

theorem prevWhere_iff (req : BookingGetRequest) (b : BookingInRepo) :
    prevWhere req b = true ↔
      b.UserID = req.UserID ∧ lexLt (BookingKey b) (req.LastCreatedAt, req.LastID) := by
  simp [prevWhere, lexLt, BookingKey]

theorem descOrder_not_lexLt {a b : BookingInRepo} (h : descOrder a b) :
    ¬ lexLt (BookingKey a) (BookingKey b) := by
  unfold descOrder ascOrder at h
  unfold lexLt BookingKey
  simp only
  rintro (h2 | ⟨e2, i2⟩)
  · rcases h with h | ⟨e, -⟩
    · exact lt_asymm h h2
    · exact lt_irrefl _ (e ▸ h2)
  · rcases h with h | ⟨-, i⟩
    · exact lt_irrefl _ (e2 ▸ h)
    · exact lt_irrefl _ (lt_of_lt_of_le i2 i)

/-- C22. Under the key and reference constraints of the tables, for mode prev, a page
size that is not negative and successful database calls, the listing returns rows with a
nil error such that: there are at most `PageSize` of them; their positions
`(createdAt, id)` never increase along the list; each is a stored reservation of the
requested user whose position is lexicographically less than the cursor; every such
reservation is among them, unless the page is full and no returned row stands below it;
and no reservation is returned twice. -/
theorem C22_prev_page (env : ListEnv) (db : DB) (req : BookingGetRequest)
    (hint : db.Integrity) (hmode : req.Mode = "prev") (hsize : 0 ≤ req.PageSize)
    (hq : env.queryErr = none) (hn : env.nextStop = none) (hs : env.scanErr = none) :
    ∃ rows : List BookingWithEventDetails,
      (bookingRepository.GetListBooking .pool { db := db, txlog := [] } env req).result
        = .ok rows ∧
      (rows.length : Int) ≤ req.PageSize ∧
      (rows.map fun x => x.toBookingInRepo).Pairwise
        (fun a b => ¬ lexLt (BookingKey a) (BookingKey b)) ∧
      (∀ x ∈ rows, x.toBookingInRepo ∈ db.booking ∧ x.UserID = req.UserID ∧
        lexLt (BookingKey x.toBookingInRepo) (req.LastCreatedAt, req.LastID)) ∧
      (∀ b ∈ db.booking, b.UserID = req.UserID →
        lexLt (BookingKey b) (req.LastCreatedAt, req.LastID) →
        b ∈ rows.map (fun x => x.toBookingInRepo) ∨
          ((rows.length : Int) = req.PageSize ∧
            ∀ x ∈ rows, ¬ lexLt (BookingKey x.toBookingInRepo) (BookingKey b))) ∧
      (rows.map fun x => x.ID).Nodup := by
  obtain ⟨rows, hres, hrows⟩ := prev_page_rows env db req hint hmode hsize hq hn hs
  have hsorted : ((db.booking.filter (prevWhere req)).insertionSort descOrder).Sorted descOrder :=
    List.sorted_insertionSort descOrder _
  have hlen : rows.length = (rows.map fun x => x.toBookingInRepo).length := by simp
  have hmemF : ∀ b, b ∈ rows.map (fun x => x.toBookingInRepo) →
      b ∈ db.booking.filter (prevWhere req) := by
    intro b hb
    rw [hrows] at hb
    exact (List.mem_insertionSort descOrder).mp (List.mem_of_mem_take hb)
  refine ⟨rows, hres, ?_, ?_, ?_, ?_, ?_⟩
  · rw [hlen, hrows, List.length_take]
    have := Nat.min_le_left req.PageSize.toNat
      ((db.booking.filter (prevWhere req)).insertionSort descOrder).length
    omega
  · rw [hrows]
    exact (List.Pairwise.sublist (List.take_sublist _ _) hsorted).imp descOrder_not_lexLt
  · intro x hx
    have hb := hmemF x.toBookingInRepo (List.mem_map.mpr ⟨x, hx, rfl⟩)
    obtain ⟨hdb, hkeep⟩ := List.mem_filter.mp hb
    exact ⟨hdb, ((prevWhere_iff req _).mp hkeep).1, ((prevWhere_iff req _).mp hkeep).2⟩
  · intro b hb hu hlt
    have hbF : b ∈ (db.booking.filter (prevWhere req)).insertionSort descOrder :=
      (List.mem_insertionSort descOrder).mpr
        (List.mem_filter.mpr ⟨hb, (prevWhere_iff req b).mpr ⟨hu, hlt⟩⟩)
    rw [← List.take_append_drop req.PageSize.toNat
      ((db.booking.filter (prevWhere req)).insertionSort descOrder)] at hbF
    rcases List.mem_append.mp hbF with h | h
    · left
      rw [hrows]
      exact h
    · right
      constructor
      · rw [hlen, hrows, List.length_take]
        have hlt2 : req.PageSize.toNat <
            ((db.booking.filter (prevWhere req)).insertionSort descOrder).length := by
          by_contra hge
          rw [List.drop_of_length_le (not_lt.mp hge)] at h
          cases h
        rw [Nat.min_eq_left (le_of_lt hlt2)]
        omega
      · intro x hx
        have hx2 : x.toBookingInRepo ∈
            ((db.booking.filter (prevWhere req)).insertionSort descOrder).take
              req.PageSize.toNat := by
          rw [← hrows]
          exact List.mem_map.mpr ⟨x, hx, rfl⟩
        exact descOrder_not_lexLt (hsorted.rel_of_mem_take_of_mem_drop hx2 h)
  · have hid : (rows.map fun x => x.ID) =
        (rows.map fun x => x.toBookingInRepo).map (fun b => b.ID) := by
      rw [List.map_map]
      rfl
    rw [hid, hrows]
    have hperm := List.perm_insertionSort descOrder (db.booking.filter (prevWhere req))
    have hnd : ((db.booking.filter (prevWhere req)).map fun b => b.ID).Nodup :=
      List.Nodup.sublist ((List.filter_sublist _).map _) hint.1
    have hnd2 : (((db.booking.filter (prevWhere req)).insertionSort descOrder).map
        fun b => b.ID).Nodup := ((hperm.map _).nodup_iff).mpr hnd
    exact List.Nodup.sublist ((List.take_sublist _ _).map _) hnd2

theorem C22_prev_page_witness :
    ∃ rows : List BookingWithEventDetails,
      (bookingRepository.GetListBooking .pool { db := listDB, txlog := [] } {} prevRequest).result
        = .ok rows ∧
      (rows.length : Int) ≤ prevRequest.PageSize ∧
      (rows.map fun x => x.toBookingInRepo).Pairwise
        (fun a b => ¬ lexLt (BookingKey a) (BookingKey b)) ∧
      (∀ x ∈ rows, x.toBookingInRepo ∈ listDB.booking ∧ x.UserID = prevRequest.UserID ∧
        lexLt (BookingKey x.toBookingInRepo) (prevRequest.LastCreatedAt, prevRequest.LastID)) ∧
      (∀ b ∈ listDB.booking, b.UserID = prevRequest.UserID →
        lexLt (BookingKey b) (prevRequest.LastCreatedAt, prevRequest.LastID) →
        b ∈ rows.map (fun x => x.toBookingInRepo) ∨
          ((rows.length : Int) = prevRequest.PageSize ∧
            ∀ x ∈ rows, ¬ lexLt (BookingKey x.toBookingInRepo) (BookingKey b))) ∧
      (rows.map fun x => x.ID).Nodup :=
  C22_prev_page {} listDB prevRequest (by decide) rfl (by decide) rfl rfl rfl

/-- C23, as stated, fails: for the mode `first` the listing performs no check of its own
and hands the empty query text to `QueryContext`. With a driver that reports no error
the call returns an empty list and a nil error; with a driver that rejects the
statement the error returned is the one of the driver, after the call. -/
theorem C23_counterexample :
    (bookingRepository.GetListBooking .pool { db := listDB, txlog := [] } {} otherRequest).queries
      = [.empty] ∧
    (bookingRepository.GetListBooking .pool { db := listDB, txlog := [] } {} otherRequest).result
      = .ok [] ∧
    (bookingRepository.GetListBooking .pool { db := listDB, txlog := [] } queryRejected
      otherRequest).queries = [.empty] ∧
    (bookingRepository.GetListBooking .pool { db := listDB, txlog := [] } queryRejected
      otherRequest).result =
        .error (.driver "bind message supplies 4 parameters, but the statement requires 0") :=
  ⟨rfl, rfl, rfl, rfl⟩

/-- C23, amended. For every mode other than `next` and `prev`, `getQueryFromMode` returns
the empty text and the listing hands exactly that text to `QueryContext`, without a
check of the mode; it returns the error of the driver when `QueryContext` reports one,
and otherwise an empty list with a nil error. -/
theorem C23_unknown_mode_runs_empty_query (h : dbInterface) (s : Session) (env : ListEnv)
    (req : BookingGetRequest) (hnext : req.Mode ≠ "next") (hprev : req.Mode ≠ "prev") :
    getQueryFromMode req.Mode = .empty ∧
    (bookingRepository.GetListBooking h s env req).queries = [.empty] ∧
    (∀ err, env.queryErr = some err →
      (bookingRepository.GetListBooking h s env req).result = .error err.toError) ∧
    (env.queryErr = none →
      (bookingRepository.GetListBooking h s env req).result = .ok []) := by
  have hq : getQueryFromMode req.Mode = .empty := by
    simp [getQueryFromMode, hnext, hprev]
  refine ⟨hq, by simp [bookingRepository.GetListBooking, hq], ?_, ?_⟩
  · intro err herr
    simp [bookingRepository.GetListBooking, herr]
  · intro hnone
    cases hn : env.nextStop <;> cases hs : env.scanErr <;>
      simp [bookingRepository.GetListBooking, hq, hnone, ListQuery.rows, hn, hs]

theorem C23_unknown_mode_runs_empty_query_witness :
    getQueryFromMode otherRequest.Mode = .empty ∧
    (bookingRepository.GetListBooking .pool { db := listDB, txlog := [] } queryRejected
      otherRequest).queries = [.empty] ∧
    (∀ err, queryRejected.queryErr = some err →
      (bookingRepository.GetListBooking .pool { db := listDB, txlog := [] } queryRejected
        otherRequest).result = .error err.toError) ∧
    (queryRejected.queryErr = none →
      (bookingRepository.GetListBooking .pool { db := listDB, txlog := [] } queryRejected
        otherRequest).result = .ok []) :=
  C23_unknown_mode_runs_empty_query .pool { db := listDB, txlog := [] } queryRejected
    otherRequest (by decide) (by decide)

/-! ## Frame of the status update, contents of the notifications -/

theorem setStatus_frame (status : String) (userID eventID : Int) (r : BookingInRepo) :
    (setStatus status userID eventID r).ID = r.ID ∧
    (setStatus status userID eventID r).UserID = r.UserID ∧
    (setStatus status userID eventID r).EventID = r.EventID ∧
    (setStatus status userID eventID r).ExpiresAt = r.ExpiresAt ∧
    (setStatus status userID eventID r).CreatedAt = r.CreatedAt := by
  unfold setStatus
  split <;> simp

/-- C24. Whatever the driver does, `Confirm` and `CancelBook` leave the events and
users tables as they were and keep every reservation at its place in the booking table
with the same identifier, user, event, `ExpiresAt` and `CreatedAt`: only `Status` can
differ. -/
theorem C24_only_status_changes (f : Faults) (db : DB) (bookID eventID userID : Int)
    (i : Nat) (r : BookingInRepo) (hr : db.booking[i]? = some r) :
    (∃ r1, (bookingService.Confirm f db bookID eventID userID).db.booking[i]? = some r1 ∧
      r1.ID = r.ID ∧ r1.UserID = r.UserID ∧ r1.EventID = r.EventID ∧
      r1.ExpiresAt = r.ExpiresAt ∧ r1.CreatedAt = r.CreatedAt) ∧
    (∃ r2, (bookingService.CancelBook f db bookID eventID userID).1.booking[i]? = some r2 ∧
      r2.ID = r.ID ∧ r2.UserID = r.UserID ∧ r2.EventID = r.EventID ∧
      r2.ExpiresAt = r.ExpiresAt ∧ r2.CreatedAt = r.CreatedAt) ∧
    (bookingService.Confirm f db bookID eventID userID).db.booking.length = db.booking.length ∧
    (bookingService.CancelBook f db bookID eventID userID).1.booking.length
      = db.booking.length ∧
    (bookingService.Confirm f db bookID eventID userID).db.events = db.events ∧
    (bookingService.CancelBook f db bookID eventID userID).1.events = db.events := by
  have hself : ∃ r0, db.booking[i]? = some r0 ∧ r0.ID = r.ID ∧ r0.UserID = r.UserID ∧
      r0.EventID = r.EventID ∧ r0.ExpiresAt = r.ExpiresAt ∧ r0.CreatedAt = r.CreatedAt :=
    ⟨r, hr, rfl, rfl, rfl, rfl, rfl⟩
  have hmap : ∀ status, ∃ r0,
      (db.booking.map (setStatus status userID eventID))[i]? = some r0 ∧ r0.ID = r.ID ∧
      r0.UserID = r.UserID ∧ r0.EventID = r.EventID ∧ r0.ExpiresAt = r.ExpiresAt ∧
      r0.CreatedAt = r.CreatedAt := by
    intro status
    refine ⟨setStatus status userID eventID r, ?_, setStatus_frame status userID eventID r⟩
    simp [List.getElem?_map, hr]
  rcases Confirm_outcome f db bookID eventID userID with ⟨hc, -⟩ | ⟨hc, -⟩ <;>
    rcases CancelBook_outcome f db bookID eventID userID with ⟨-, hx⟩ | ⟨-, hx⟩ <;>
    rw [hc, hx] <;>
    first
      | exact ⟨hself, hself, rfl, rfl, rfl, rfl⟩
      | exact ⟨hself, hmap _, rfl, by simp, rfl, rfl⟩
      | exact ⟨hmap _, hself, by simp, rfl, rfl, rfl⟩
      | exact ⟨hmap _, hmap _, by simp, by simp, rfl, rfl⟩

theorem C24_only_status_changes_witness :
    (∃ r1, (bookingService.Confirm {} sampleDB 1 3 7).db.booking[0]? = some r1 ∧
      r1.ID = 1 ∧ r1.UserID = 7 ∧ r1.EventID = 3 ∧ r1.ExpiresAt = 150 ∧ r1.CreatedAt = 100) ∧
    (∃ r2, (bookingService.CancelBook {} sampleDB 1 3 7).1.booking[0]? = some r2 ∧
      r2.ID = 1 ∧ r2.UserID = 7 ∧ r2.EventID = 3 ∧ r2.ExpiresAt = 150 ∧ r2.CreatedAt = 100) ∧
    (bookingService.Confirm {} sampleDB 1 3 7).db.booking.length = sampleDB.booking.length ∧
    (bookingService.CancelBook {} sampleDB 1 3 7).1.booking.length = sampleDB.booking.length ∧
    (bookingService.Confirm {} sampleDB 1 3 7).db.events = sampleDB.events ∧
    (bookingService.CancelBook {} sampleDB 1 3 7).1.events = sampleDB.events :=
  C24_only_status_changes {} sampleDB 1 3 7 0
    { ID := 1, UserID := 7, EventID := 3, Status := "pending", ExpiresAt := 150, CreatedAt := 100 }
    (by decide)

/-- The message built for a row carries its chat identifier, a zero attempt counter,
and a text in which the identifier, the title and the formatted date of the row occur. -/
theorem buildMessage_contents (timeString : Time → String) (x : BookingGetForTG) :
    (buildMessage timeString x).ChatID = x.TgChatID ∧
    (buildMessage timeString x).Attempts = 0 ∧
    (∃ pre post, (buildMessage timeString x).Text = pre ++ x.TitleEvent ++ post) ∧
    (∃ pre post, (buildMessage timeString x).Text = pre ++ toString x.ID ++ post) ∧
    (∃ pre post, (buildMessage timeString x).Text = pre ++ timeString x.EventDate ++ post) := by
  refine ⟨rfl, rfl, ?_, ?_, ?_⟩
  · exact ⟨"Бронирование " ++ toString x.ID ++ " отменено.\n" ++ "Событие: ",
      "\n" ++ ("Время события: " ++ timeString x.EventDate ++ "\n"), by
        simp only [buildMessage, String.append_assoc]⟩
  · exact ⟨"Бронирование ",
      " отменено.\n" ++ ("Событие: " ++ x.TitleEvent ++ "\n") ++
        ("Время события: " ++ timeString x.EventDate ++ "\n"), by
        simp only [buildMessage, String.append_assoc]⟩
  · exact ⟨"Бронирование " ++ toString x.ID ++ " отменено.\n" ++
        ("Событие: " ++ x.TitleEvent ++ "\n") ++ "Время события: ", "\n", by
        simp only [buildMessage, String.append_assoc]⟩

/-- C25. In a sweep iteration whose selection returns `rows` with a nil error and in
which no cancellation is taken during the pushes, the messages pushed are as many as
the rows and the message at each place is the one built from the row at that place:
its `ChatID` is the chat identifier of the row, its `Attempts` is 0, and its text
contains the event title, the reservation identifier and the formatted event date of
the row. -/
theorem C25_one_message_per_row (env : SweepEnv) (db : DB) (rows : List BookingGetForTG)
    (hsel : bookingRepository.GetExpiredBooking .pool { db := db, txlog := [] } env.nowSelect
      env.expiredQuery env.expiredNext env.expiredScan = .ok rows)
    (hcancel : ∀ n, env.cancelAt = some n → rows.length ≤ n) :
    (SchedulerService.tick env db).pushed.length = rows.length ∧
    (SchedulerService.tick env db).returned = false ∧
    ∀ (i : Nat) (x : BookingGetForTG), rows[i]? = some x →
      ∃ m, (SchedulerService.tick env db).pushed[i]? = some m ∧
        m.ChatID = x.TgChatID ∧ m.Attempts = 0 ∧
        (∃ pre post, m.Text = pre ++ x.TitleEvent ++ post) ∧
        (∃ pre post, m.Text = pre ++ toString x.ID ++ post) ∧
        (∃ pre post, m.Text = pre ++ env.timeString x.EventDate ++ post) := by
  have hpushed : (SchedulerService.tick env db).pushed = rows.map (buildMessage env.timeString) ∧
      (SchedulerService.tick env db).returned = false := by
    cases hc : env.cancelAt with
    | none => simp [SchedulerService.tick, hsel, hc]
    | some n =>
      have hle : ¬ n < rows.length := not_lt.mpr (hcancel n hc)
      simp [SchedulerService.tick, hsel, hc, hle]
  refine ⟨by rw [hpushed.1, List.length_map], hpushed.2, ?_⟩
  intro i x hx
  refine ⟨buildMessage env.timeString x, ?_, buildMessage_contents env.timeString x⟩
  rw [hpushed.1]
  simp [List.getElem?_map, hx]

theorem C25_one_message_per_row_witness :
    (SchedulerService.tick sweepEnv sweepDB).pushed.length = 1 ∧
    (SchedulerService.tick sweepEnv sweepDB).returned = false ∧
    ∀ (i : Nat) (x : BookingGetForTG),
      [({ ID := 1, TgChatID := 555, EventDate := 1000, TitleEvent := "concert" } :
        BookingGetForTG)][i]? = some x →
      ∃ m, (SchedulerService.tick sweepEnv sweepDB).pushed[i]? = some m ∧
        m.ChatID = x.TgChatID ∧ m.Attempts = 0 ∧
        (∃ pre post, m.Text = pre ++ x.TitleEvent ++ post) ∧
        (∃ pre post, m.Text = pre ++ toString x.ID ++ post) ∧
        (∃ pre post, m.Text = pre ++ sweepEnv.timeString x.EventDate ++ post) :=
  C25_one_message_per_row sweepEnv sweepDB
    [{ ID := 1, TgChatID := 555, EventDate := 1000, TitleEvent := "concert" }] rfl
    (fun n h => by cases h)

/-! ## Properties of the handlers -/

/-- C26. In the handlers `Book`, `Confirm` and `Cancel`, when `strconv.Atoi` rejects the
`event_id` parameter, and in the handler `GetListBooking`, when `time.Parse` rejects
`last_created_at` or `strconv.Atoi` rejects `last_id` or `page_size`, the response has
status 400, its body is the error response carrying the message of the first parse
error met, and no method of the booking service is called. -/
theorem C26_parse_failure_is_400 (lib : Stdlib) (svc : BookingServiceStub)
    (c : HandlerRequest) :
    (∀ err, lib.Atoi c.event_id = .error err →
      BookingHandler.Book lib svc c = { status := 400, body := .error err.Error, calls := [] } ∧
      BookingHandler.Confirm lib svc c =
        { status := 400, body := .error err.Error, calls := [] } ∧
      BookingHandler.Cancel lib svc c =
        { status := 400, body := .error err.Error, calls := [] }) ∧
    (∀ err, lib.ParseRFC3339 c.last_created_at = .error err →
      BookingHandler.GetListBooking lib svc c =
        { status := 400, body := .error err.Error, calls := [] }) ∧
    (∀ t err, lib.ParseRFC3339 c.last_created_at = .ok t → lib.Atoi c.last_id = .error err →
      BookingHandler.GetListBooking lib svc c =
        { status := 400, body := .error err.Error, calls := [] }) ∧
    (∀ t id err, lib.ParseRFC3339 c.last_created_at = .ok t → lib.Atoi c.last_id = .ok id →
      lib.Atoi c.page_size = .error err →
      BookingHandler.GetListBooking lib svc c =
        { status := 400, body := .error err.Error, calls := [] }) := by
  refine ⟨?_, ?_, ?_, ?_⟩
  · intro err h
    simp [BookingHandler.Book, BookingHandler.Confirm, BookingHandler.Cancel,
      NewErrorResponse, h]
  · intro err h
    simp [BookingHandler.GetListBooking, NewErrorResponse, h]
  · intro t err h1 h2
    simp [BookingHandler.GetListBooking, NewErrorResponse, h1, h2]
  · intro t id err h1 h2 h3
    simp [BookingHandler.GetListBooking, NewErrorResponse, h1, h2, h3]

theorem C26_parse_failure_is_400_witness :
    (BookingHandler.Book sampleLib okService { userID := 42, event_id := "invalid" } =
        { status := 400,
          body := .error "strconv.Atoi: parsing: invalid syntax", calls := [] } ∧
      BookingHandler.Confirm sampleLib okService { userID := 42, event_id := "invalid" } =
        { status := 400,
          body := .error "strconv.Atoi: parsing: invalid syntax", calls := [] } ∧
      BookingHandler.Cancel sampleLib okService { userID := 42, event_id := "invalid" } =
        { status := 400,
          body := .error "strconv.Atoi: parsing: invalid syntax", calls := [] }) ∧
    BookingHandler.GetListBooking sampleLib okService
        { userID := 42, last_id := "15", page_size := "15", mode := "next" } =
      { status := 400, body := .error "parsing time: cannot parse", calls := [] } ∧
    BookingHandler.GetListBooking sampleLib okService
        { userID := 42, last_created_at := "2026-11-01T10:00:00Z", last_id := "x",
          page_size := "15", mode := "next" } =
      { status := 400, body := .error "strconv.Atoi: parsing: invalid syntax", calls := [] } ∧
    BookingHandler.GetListBooking sampleLib okService
        { userID := 42, last_created_at := "2026-11-01T10:00:00Z", last_id := "15",
          page_size := "ten", mode := "next" } =
      { status := 400, body := .error "strconv.Atoi: parsing: invalid syntax", calls := [] } :=
  ⟨(C26_parse_failure_is_400 sampleLib okService { userID := 42, event_id := "invalid" }).1
      (.driver "strconv.Atoi: parsing: invalid syntax") rfl,
   (C26_parse_failure_is_400 sampleLib okService
      { userID := 42, last_id := "15", page_size := "15", mode := "next" }).2.1
      (.driver "parsing time: cannot parse") rfl,
   (C26_parse_failure_is_400 sampleLib okService
      { userID := 42, last_created_at := "2026-11-01T10:00:00Z", last_id := "x",
        page_size := "15", mode := "next" }).2.2.1 1000
      (.driver "strconv.Atoi: parsing: invalid syntax") rfl rfl,
   (C26_parse_failure_is_400 sampleLib okService
      { userID := 42, last_created_at := "2026-11-01T10:00:00Z", last_id := "15",
        page_size := "ten", mode := "next" }).2.2.2 1000 15
      (.driver "strconv.Atoi: parsing: invalid syntax") rfl rfl rfl⟩

/-- C27. When `strconv.Atoi` reads the `event_id` parameter as `e`, the handler `Book`
calls the method `Book` of the service exactly once, with `UserID` the user identifier
of the context (zero included) and `EventID = e`, and calls no other method; when that
call returns nil the response is 201 with result `book`, and when it returns an error
the response is 500 with the message of that error as its error field. -/
theorem C27_book_handler (lib : Stdlib) (svc : BookingServiceStub) (c : HandlerRequest)
    (e : Int) (hparse : lib.Atoi c.event_id = .ok e) :
    (BookingHandler.Book lib svc c).calls = [.Book { UserID := c.userID, EventID := e }] ∧
    (svc.Book { UserID := c.userID, EventID := e } = none →
      (BookingHandler.Book lib svc c).status = 201 ∧
      (BookingHandler.Book lib svc c).body = .result "book") ∧
    (∀ err, svc.Book { UserID := c.userID, EventID := e } = some err →
      (BookingHandler.Book lib svc c).status = 500 ∧
      (BookingHandler.Book lib svc c).body = .error err.Error) := by
  refine ⟨?_, ?_, ?_⟩
  · cases h : svc.Book { UserID := c.userID, EventID := e } <;>
      simp [BookingHandler.Book, NewErrorResponse, NewSuccessResponse, hparse, h]
  · intro h
    simp [BookingHandler.Book, NewSuccessResponse, hparse, h]
  · intro err h
    simp [BookingHandler.Book, NewErrorResponse, hparse, h]

theorem C27_book_handler_witness :
    (BookingHandler.Book sampleLib okService { userID := 0, event_id := "15" }).calls
      = [.Book { UserID := 0, EventID := 15 }] ∧
    ((BookingHandler.Book sampleLib okService { userID := 0, event_id := "15" }).status = 201 ∧
      (BookingHandler.Book sampleLib okService { userID := 0, event_id := "15" }).body
        = .result "book") ∧
    ((BookingHandler.Book sampleLib failingService { userID := 42, event_id := "15" }).status
        = 500 ∧
      (BookingHandler.Book sampleLib failingService { userID := 42, event_id := "15" }).body
        = .error "no seats available") :=
  ⟨(C27_book_handler sampleLib okService { userID := 0, event_id := "15" } 15 rfl).1,
   (C27_book_handler sampleLib okService { userID := 0, event_id := "15" } 15 rfl).2.1 rfl,
   (C27_book_handler sampleLib failingService { userID := 42, event_id := "15" } 15 rfl).2.2
     .ErrNoSeatsAvailable rfl⟩

/-! ## Cancellation of the sweep, repeated bookings, validation of new events -/

/-- C28, as stated, fails: when the cancellation is taken at the first push of an
iteration, `Start` returns at once. The expired pending reservation is still stored (the
bulk delete of the iteration is not run), no message is pushed, and no later iteration
is started. -/
theorem C28_counterexample :
    SchedulerService.tick cancelEnv sweepDB =
      { db := sweepDB, pushed := [], returned := true } ∧
    ({ ID := 1, UserID := 7, EventID := 3, Status := "pending", ExpiresAt := 150,
       CreatedAt := 100 } : BookingInRepo) ∈ (SchedulerService.tick cancelEnv sweepDB).db.booking ∧
    (SchedulerService.tick sweepEnv sweepDB).db.booking =
      [{ ID := 2, UserID := 7, EventID := 3, Status := "confirmed", ExpiresAt := 120,
         CreatedAt := 70 }] ∧
    SchedulerService.Start [.tick cancelEnv, .tick sweepEnv] sweepDB = (sweepDB, [], 1) := by
  decide

/-- C28, amended. When the selection of an iteration returns `rows` and the cancellation
is taken once `n` of their messages have been pushed, `n` being less than their
number, `Start` returns at once: the tables are as they were (the bulk delete is not
run), only the first `n` messages have been pushed, and whatever cases would follow, no
further iteration is started. When no cancellation is taken during the pushes, the
iteration ends with its bulk delete and `Start` goes on. -/
theorem C28_cancel_during_pushes (env : SweepEnv) (db : DB) (rows : List BookingGetForTG)
    (rest : List SelectCase)
    (hsel : bookingRepository.GetExpiredBooking .pool { db := db, txlog := [] } env.nowSelect
      env.expiredQuery env.expiredNext env.expiredScan = .ok rows) :
    (∀ n, env.cancelAt = some n → n < rows.length →
      (SchedulerService.tick env db).returned = true ∧
      (SchedulerService.tick env db).db = db ∧
      (SchedulerService.tick env db).pushed = (rows.map (buildMessage env.timeString)).take n ∧
      SchedulerService.Start (.tick env :: rest) db =
        (db, (rows.map (buildMessage env.timeString)).take n, 1)) ∧
    ((∀ n, env.cancelAt = some n → rows.length ≤ n) →
      (SchedulerService.tick env db).returned = false ∧
      (SchedulerService.tick env db).db = SchedulerService.deleteExpiredBooking env db ∧
      (SchedulerService.tick env db).pushed = rows.map (buildMessage env.timeString)) := by
  constructor
  · intro n hc hn
    have ht : SchedulerService.tick env db =
        { db := db, pushed := (rows.map (buildMessage env.timeString)).take n,
          returned := true } := by
      simp [SchedulerService.tick, hsel, hc, hn]
    simp [SchedulerService.Start, ht]
  · intro hall
    cases hc : env.cancelAt with
    | none => simp [SchedulerService.tick, hsel, hc]
    | some n =>
      have hle : ¬ n < rows.length := not_lt.mpr (hall n hc)
      simp [SchedulerService.tick, hsel, hc, hle]

theorem C28_cancel_during_pushes_witness :
    ((SchedulerService.tick cancelEnv sweepDB).returned = true ∧
      (SchedulerService.tick cancelEnv sweepDB).db = sweepDB ∧
      (SchedulerService.tick cancelEnv sweepDB).pushed =
        ([({ ID := 1, TgChatID := 555, EventDate := 1000, TitleEvent := "concert" } :
          BookingGetForTG)].map (buildMessage cancelEnv.timeString)).take 0 ∧
      SchedulerService.Start (.tick cancelEnv :: [.tick sweepEnv]) sweepDB =
        (sweepDB,
          ([({ ID := 1, TgChatID := 555, EventDate := 1000, TitleEvent := "concert" } :
            BookingGetForTG)].map (buildMessage cancelEnv.timeString)).take 0, 1)) ∧
    ((SchedulerService.tick sweepEnv sweepDB).returned = false ∧
      (SchedulerService.tick sweepEnv sweepDB).db =
        SchedulerService.deleteExpiredBooking sweepEnv sweepDB ∧
      (SchedulerService.tick sweepEnv sweepDB).pushed =
        [({ ID := 1, TgChatID := 555, EventDate := 1000, TitleEvent := "concert" } :
          BookingGetForTG)].map (buildMessage sweepEnv.timeString)) :=
  ⟨(C28_cancel_during_pushes cancelEnv sweepDB
      [{ ID := 1, TgChatID := 555, EventDate := 1000, TitleEvent := "concert" }]
      [.tick sweepEnv] rfl).1 0 rfl (by decide),
   (C28_cancel_during_pushes sweepEnv sweepDB
      [{ ID := 1, TgChatID := 555, EventDate := 1000, TitleEvent := "concert" }]
      [] rfl).2 (fun n h => by cases h)⟩

/-- C29. `Book` makes no check per user: in the sample tables user 7 already holds a
pending reservation for event 3, whose date is in the future and which has one of its
two places free; a further `Book` by user 7 for event 3 returns nil, stores a second
reservation of that user for that event, and the occupied count goes from 1 to 2. -/
theorem C29_same_user_books_twice :
    ({ ID := 1, UserID := 7, EventID := 3, Status := "pending", ExpiresAt := 150,
       CreatedAt := 100 } : BookingInRepo) ∈ sampleDB.booking ∧
    eventRow sampleDB 3 = some sampleEvent ∧
    sampleEnv.nowCheck < sampleEvent.EventDate ∧
    occupied sampleDB 3 = 1 ∧ sampleEvent.TotalPlace = 2 ∧
    bookingService.Book sampleEnv sampleDB { UserID := 7, EventID := 3 } =
      { db := { events := [sampleEvent],
                booking :=
                  [{ ID := 1, UserID := 7, EventID := 3, Status := "pending", ExpiresAt := 150,
                     CreatedAt := 100 },
                   { ID := 2, UserID := 7, EventID := 3, Status := "pending", ExpiresAt := 251,
                     CreatedAt := 202 }] },
        calls := [.Commit], result := .returned none } ∧
    occupied (bookingService.Book sampleEnv sampleDB { UserID := 7, EventID := 3 }).db 3 = 2 := by
  decide

/-- C30. The function `validateCreateEvent` returns nil exactly when the title is not
empty, the event date is not before the clock reading and `TotalPlace` is positive;
otherwise it returns `ErrEmptyTitle` for an empty title, else `ErrInvalidEventDate` for
a date before the clock reading, else `ErrInvalidTotalPlace`. When it returns an error,
`CreateEvent` returns that error and leaves the tables as they were. -/
theorem C30_validate_create_event (env : CreateEventEnv) (now : Time) (db : DB)
    (e : EventInCreate) :
    (validateCreateEvent now e = none ↔
      e.Title ≠ "" ∧ ¬ e.EventDate < now ∧ 0 < e.TotalPlace) ∧
    (e.Title = "" → validateCreateEvent now e = some .ErrEmptyTitle) ∧
    (e.Title ≠ "" → e.EventDate < now →
      validateCreateEvent now e = some .ErrInvalidEventDate) ∧
    (e.Title ≠ "" → ¬ e.EventDate < now → e.TotalPlace ≤ 0 →
      validateCreateEvent now e = some .ErrInvalidTotalPlace) ∧
    (∀ err, validateCreateEvent env.nowValidate e = some err →
      eventService.CreateEvent env db e = (db, some err)) := by
  refine ⟨?_, ?_, ?_, ?_, ?_⟩
  · unfold validateCreateEvent
    by_cases h1 : e.Title = ""
    · simp [h1]
    · by_cases h2 : e.EventDate < now
      · simp [h1, h2]
      · by_cases h3 : e.TotalPlace ≤ 0
        · simp [h1, h2, h3]
        · simp [h1, h2, h3]
          exact not_le.mp h3
  · intro h1
    simp [validateCreateEvent, h1]
  · intro h1 h2
    simp [validateCreateEvent, h1, h2]
  · intro h1 h2 h3
    simp [validateCreateEvent, h1, h2, h3]
  · intro err h
    simp [eventService.CreateEvent, h]

theorem C30_validate_create_event_witness :
    (validateCreateEvent 200 { sampleCreate with TotalPlace := 5 } = none ↔
      ({ sampleCreate with TotalPlace := 5 } : EventInCreate).Title ≠ "" ∧
      ¬ ({ sampleCreate with TotalPlace := 5 } : EventInCreate).EventDate < 200 ∧
      0 < ({ sampleCreate with TotalPlace := 5 } : EventInCreate).TotalPlace) ∧
    validateCreateEvent 200 { sampleCreate with Title := "" } = some .ErrEmptyTitle ∧
    validateCreateEvent 2000 sampleCreate = some .ErrInvalidEventDate ∧
    validateCreateEvent 200 sampleCreate = some .ErrInvalidTotalPlace ∧
    eventService.CreateEvent createEnv sampleDB sampleCreate
      = (sampleDB, some .ErrInvalidTotalPlace) :=
  ⟨(C30_validate_create_event createEnv 200 sampleDB { sampleCreate with TotalPlace := 5 }).1,
   (C30_validate_create_event createEnv 200 sampleDB { sampleCreate with Title := "" }).2.1 rfl,
   (C30_validate_create_event createEnv 2000 sampleDB sampleCreate).2.2.1 (by decide)
     (by decide),
   (C30_validate_create_event createEnv 200 sampleDB sampleCreate).2.2.2.1 (by decide)
     (by decide) (by decide),
   (C30_validate_create_event createEnv 200 sampleDB sampleCreate).2.2.2.2
     .ErrInvalidTotalPlace (by decide)⟩

end EventBooker
